import Mathlib

/-!
Verification of the kerr-black-hole renderer against its specification.

The GLSL fragment shaders under public/shaders/blackhole and the TypeScript
physics helpers are shallowly embedded over the real numbers: GLSL float
arithmetic is modelled by exact real arithmetic, GLSL builtins (floor, mod,
step, clamp, mix, smoothstep, pow, atan, asin, sin) by their Mathlib
counterparts, and the per-pixel integration loops by fuel-bounded recursion
with the fuel set to the shader's MAX_STEPS constant.

Namespaces:
  PP   - public/shaders/blackhole/kerr_postprocess.glsl (the definitions are
         textually identical in kerr_blackhole.glsl, which shares accel,
         adiskColor, sampleBackground, traceColor and main with it)
  Grav - public/shaders/blackhole/gravitational_lensing.glsl
  Lens - the Kerr-inspired gravitational_lensing.glsl variant
         (shaders/blackhole/gravitational_lensing.glsl)
  TS   - lib/blackhole/physics.ts
-/

noncomputable section

namespace KerrBH

open Real

/-- GLSL vec2 over exact reals. -/
@[ext]
structure Vec2 where
  x : ℝ
  y : ℝ

/-- GLSL vec3 over exact reals. -/
@[ext]
structure Vec3 where
  x : ℝ
  y : ℝ
  z : ℝ

/-- GLSL vec4 over exact reals. -/
@[ext]
structure Vec4 where
  x : ℝ
  y : ℝ
  z : ℝ
  w : ℝ

instance : Add Vec3 := ⟨fun a b => ⟨a.x + b.x, a.y + b.y, a.z + b.z⟩⟩

instance : Sub Vec3 := ⟨fun a b => ⟨a.x - b.x, a.y - b.y, a.z - b.z⟩⟩

instance : Neg Vec3 := ⟨fun a => ⟨-a.x, -a.y, -a.z⟩⟩

instance : Mul Vec3 := ⟨fun a b => ⟨a.x * b.x, a.y * b.y, a.z * b.z⟩⟩

instance : HMul ℝ Vec3 Vec3 := ⟨fun s v => ⟨s * v.x, s * v.y, s * v.z⟩⟩

instance : HMul Vec3 ℝ Vec3 := ⟨fun v s => ⟨v.x * s, v.y * s, v.z * s⟩⟩

instance : HDiv Vec3 Vec3 Vec3 := ⟨fun a b => ⟨a.x / b.x, a.y / b.y, a.z / b.z⟩⟩

instance : HDiv Vec3 ℝ Vec3 := ⟨fun v s => ⟨v.x / s, v.y / s, v.z / s⟩⟩

instance : HAdd Vec3 ℝ Vec3 := ⟨fun v s => ⟨v.x + s, v.y + s, v.z + s⟩⟩

instance : HSub Vec3 ℝ Vec3 := ⟨fun v s => ⟨v.x - s, v.y - s, v.z - s⟩⟩

instance : HSub ℝ Vec3 Vec3 := ⟨fun s v => ⟨s - v.x, s - v.y, s - v.z⟩⟩

instance : Add Vec4 := ⟨fun a b => ⟨a.x + b.x, a.y + b.y, a.z + b.z, a.w + b.w⟩⟩

instance : Sub Vec4 := ⟨fun a b => ⟨a.x - b.x, a.y - b.y, a.z - b.z, a.w - b.w⟩⟩

instance : Neg Vec4 := ⟨fun a => ⟨-a.x, -a.y, -a.z, -a.w⟩⟩

instance : Mul Vec4 := ⟨fun a b => ⟨a.x * b.x, a.y * b.y, a.z * b.z, a.w * b.w⟩⟩

instance : HMul ℝ Vec4 Vec4 := ⟨fun s v => ⟨s * v.x, s * v.y, s * v.z, s * v.w⟩⟩

instance : HMul Vec4 ℝ Vec4 := ⟨fun v s => ⟨v.x * s, v.y * s, v.z * s, v.w * s⟩⟩

instance : HAdd Vec4 ℝ Vec4 := ⟨fun v s => ⟨v.x + s, v.y + s, v.z + s, v.w + s⟩⟩

instance : HAdd ℝ Vec4 Vec4 := ⟨fun s v => ⟨s + v.x, s + v.y, s + v.z, s + v.w⟩⟩

instance : HSub ℝ Vec4 Vec4 := ⟨fun s v => ⟨s - v.x, s - v.y, s - v.z, s - v.w⟩⟩

instance : HMul Vec2 ℝ Vec2 := ⟨fun v s => ⟨v.x * s, v.y * s⟩⟩

instance : HSub Vec2 ℝ Vec2 := ⟨fun v s => ⟨v.x - s, v.y - s⟩⟩

/-- GLSL fract: x - floor(x). -/
def fract (x : ℝ) : ℝ := x - ⌊x⌋

/-- GLSL floor on a scalar, back into the reals. -/
def floorR (x : ℝ) : ℝ := ⌊x⌋

/-- GLSL mod(x, y) = x - y * floor(x / y). -/
def glslMod (x y : ℝ) : ℝ := x - y * ⌊x / y⌋

/-- GLSL step(edge, x): 0 when x is less than edge, else 1. -/
def stepf (edge x : ℝ) : ℝ := if x < edge then 0 else 1

/-- GLSL clamp on a scalar. -/
def clampf (x lo hi : ℝ) : ℝ := min (max x lo) hi

/-- GLSL mix on scalars: a + (b - a) * t. -/
def mixf (a b t : ℝ) : ℝ := a + (b - a) * t

/-- GLSL mix on vec3 with a scalar weight. -/
def mix3 (a b : Vec3) (t : ℝ) : Vec3 := ⟨mixf a.x b.x t, mixf a.y b.y t, mixf a.z b.z t⟩

/-- GLSL smoothstep. -/
def smoothstepf (e0 e1 x : ℝ) : ℝ :=
  let t := clampf ((x - e0) / (e1 - e0)) 0 1
  t * t * (3 - 2 * t)

/-- GLSL two-argument atan (atan2). -/
def atan2 (y x : ℝ) : ℝ :=
  if 0 < x then arctan (y / x)
  else if x < 0 then (if 0 ≤ y then arctan (y / x) + π else arctan (y / x) - π)
  else if 0 < y then π / 2
  else if y < 0 then -(π / 2)
  else 0

/-- Dot product on vec2. -/
def dot2 (a b : Vec2) : ℝ := a.x * b.x + a.y * b.y

/-- Dot product on vec3. -/
def dot3 (a b : Vec3) : ℝ := a.x * b.x + a.y * b.y + a.z * b.z

/-- Dot product on vec4. -/
def dot4 (a b : Vec4) : ℝ := a.x * b.x + a.y * b.y + a.z * b.z + a.w * b.w

/-- GLSL cross product. -/
def cross (a b : Vec3) : Vec3 :=
  ⟨a.y * b.z - a.z * b.y, a.z * b.x - a.x * b.z, a.x * b.y - a.y * b.x⟩

/-- GLSL length of a vec2. -/
def length2 (v : Vec2) : ℝ := Real.sqrt (dot2 v v)

/-- GLSL length of a vec3. -/
def length (v : Vec3) : ℝ := Real.sqrt (dot3 v v)

/-- GLSL normalize of a vec3. -/
def normalize (v : Vec3) : Vec3 := v / length v

/-- Componentwise floor on vec3. -/
def floor3 (v : Vec3) : Vec3 := ⟨floorR v.x, floorR v.y, floorR v.z⟩

/-- Componentwise floor on vec4. -/
def floor4 (v : Vec4) : Vec4 := ⟨floorR v.x, floorR v.y, floorR v.z, floorR v.w⟩

/-- Componentwise abs on vec4. -/
def abs4 (v : Vec4) : Vec4 := ⟨|v.x|, |v.y|, |v.z|, |v.w|⟩

/-- Componentwise step on vec3. -/
def step3 (e v : Vec3) : Vec3 := ⟨stepf e.x v.x, stepf e.y v.y, stepf e.z v.z⟩

/-- Componentwise step on vec4. -/
def step4 (e v : Vec4) : Vec4 := ⟨stepf e.x v.x, stepf e.y v.y, stepf e.z v.z, stepf e.w v.w⟩

/-- Componentwise min on vec3. -/
def min3 (a b : Vec3) : Vec3 := ⟨min a.x b.x, min a.y b.y, min a.z b.z⟩

/-- Componentwise max on vec3. -/
def max3 (a b : Vec3) : Vec3 := ⟨max a.x b.x, max a.y b.y, max a.z b.z⟩

/-- Componentwise max of a vec4 against a scalar lower bound. -/
def max4s (v : Vec4) (s : ℝ) : Vec4 := ⟨max v.x s, max v.y s, max v.z s, max v.w s⟩

/-- Componentwise GLSL mod of a vec3 by a scalar. -/
def mod3 (v : Vec3) (m : ℝ) : Vec3 := ⟨glslMod v.x m, glslMod v.y m, glslMod v.z m⟩

/-- Componentwise GLSL mod of a vec4 by a scalar. -/
def mod4 (v : Vec4) (m : ℝ) : Vec4 := ⟨glslMod v.x m, glslMod v.y m, glslMod v.z m, glslMod v.w m⟩

/-! Simplex noise, quaternion rotation and coordinate helpers shared verbatim by
kerr_postprocess.glsl and kerr_blackhole.glsl. -/

/-- GLSL permute(x) = mod(((x * 34.0) + 1.0) * x, 289.0). -/
def permute (x : Vec4) : Vec4 := mod4 ((x * (34:ℝ) + (1:ℝ)) * x) 289

/-- GLSL taylorInvSqrt(r) = 1.79284291400159 - 0.85373472095314 * r. -/
def taylorInvSqrt (r : Vec4) : Vec4 := (1.79284291400159 : ℝ) - (0.85373472095314 : ℝ) * r

/-- Simplex noise snoise(v) from the two Kerr shaders, transcribed line by line. -/
def snoise (v : Vec3) : ℝ :=
  let C : Vec2 := ⟨1 / 6, 1 / 3⟩
  let D : Vec4 := ⟨0, 0.5, 1, 2⟩
  let i0 := floor3 (v + dot3 v ⟨C.y, C.y, C.y⟩)
  let x0 := v - i0 + dot3 i0 ⟨C.x, C.x, C.x⟩
  let g := step3 ⟨x0.y, x0.z, x0.x⟩ ⟨x0.x, x0.y, x0.z⟩
  let l := (1:ℝ) - g
  let i1 := min3 ⟨g.x, g.y, g.z⟩ ⟨l.z, l.x, l.y⟩
  let i2 := max3 ⟨g.x, g.y, g.z⟩ ⟨l.z, l.x, l.y⟩
  let x1 := x0 - i1 + (1:ℝ) * (⟨C.x, C.x, C.x⟩ : Vec3)
  let x2 := x0 - i2 + (2:ℝ) * (⟨C.x, C.x, C.x⟩ : Vec3)
  let x3 := (x0 - (1:ℝ)) + (3:ℝ) * (⟨C.x, C.x, C.x⟩ : Vec3)
  let i := mod3 i0 289
  let p := permute (permute (permute
      (i.z + (⟨0, i1.z, i2.z, 1⟩ : Vec4)) + i.y + (⟨0, i1.y, i2.y, 1⟩ : Vec4))
      + i.x + (⟨0, i1.x, i2.x, 1⟩ : Vec4))
  let n' : ℝ := 1 / 7
  let ns : Vec3 := n' * (⟨D.w, D.y, D.z⟩ : Vec3) - (⟨D.x, D.z, D.x⟩ : Vec3)
  let j := p - (49:ℝ) * floor4 (p * (ns.z * ns.z))
  let x' := floor4 (j * ns.z)
  let y' := floor4 (j - x' * (7:ℝ))
  let x := x' * ns.x + ns.y
  let y := y' * ns.x + ns.y
  let h := (1:ℝ) - abs4 x - abs4 y
  let b0 : Vec4 := ⟨x.x, x.y, y.x, y.y⟩
  let b1 : Vec4 := ⟨x.z, x.w, y.z, y.w⟩
  let s0 := floor4 b0 * (2:ℝ) + (1:ℝ)
  let s1 := floor4 b1 * (2:ℝ) + (1:ℝ)
  let sh := -step4 h ⟨0, 0, 0, 0⟩
  let a0 := (⟨b0.x, b0.z, b0.y, b0.w⟩ : Vec4) + (⟨s0.x, s0.z, s0.y, s0.w⟩ : Vec4) * (⟨sh.x, sh.x, sh.y, sh.y⟩ : Vec4)
  let a1 := (⟨b1.x, b1.z, b1.y, b1.w⟩ : Vec4) + (⟨s1.x, s1.z, s1.y, s1.w⟩ : Vec4) * (⟨sh.z, sh.z, sh.w, sh.w⟩ : Vec4)
  let p0 : Vec3 := ⟨a0.x, a0.y, h.x⟩
  let p1 : Vec3 := ⟨a0.z, a0.w, h.y⟩
  let p2 : Vec3 := ⟨a1.x, a1.y, h.z⟩
  let p3 : Vec3 := ⟨a1.z, a1.w, h.w⟩
  let norm := taylorInvSqrt ⟨dot3 p0 p0, dot3 p1 p1, dot3 p2 p2, dot3 p3 p3⟩
  let q0 := norm.x * p0
  let q1 := norm.y * p1
  let q2 := norm.z * p2
  let q3 := norm.w * p3
  let m := max4s ((0.6:ℝ) - (⟨dot3 x0 x0, dot3 x1 x1, dot3 x2 x2, dot3 x3 x3⟩ : Vec4)) 0
  let m2 := m * m
  42 * dot4 (m2 * m2) ⟨dot3 q0 x0, dot3 q1 x1, dot3 q2 x2, dot3 q3 x3⟩

/-- GLSL quadFromAxisAngle from the Kerr shaders (angle taken in degrees). -/
def quadFromAxisAngle (axis : Vec3) (angle : ℝ) : Vec4 :=
  let half_angle := (angle * 0.5) * π / 180
  ⟨axis.x * Real.sin half_angle, axis.y * Real.sin half_angle,
   axis.z * Real.sin half_angle, Real.cos half_angle⟩

/-- GLSL quadConj from the Kerr shaders. -/
def quadConj (q : Vec4) : Vec4 := ⟨-q.x, -q.y, -q.z, q.w⟩

/-- GLSL quat_mult from the Kerr shaders. -/
def quat_mult (q1 q2 : Vec4) : Vec4 :=
  ⟨(q1.w * q2.x) + (q1.x * q2.w) + (q1.y * q2.z) - (q1.z * q2.y),
   (q1.w * q2.y) - (q1.x * q2.z) + (q1.y * q2.w) + (q1.z * q2.x),
   (q1.w * q2.z) + (q1.x * q2.y) - (q1.y * q2.x) + (q1.z * q2.w),
   (q1.w * q2.w) - (q1.x * q2.x) - (q1.y * q2.y) - (q1.z * q2.z)⟩

/-- GLSL rotateVector from the Kerr shaders. -/
def rotateVector (position axis : Vec3) (angle : ℝ) : Vec3 :=
  let qr := quadFromAxisAngle axis angle
  let qr_conj := quadConj qr
  let q_pos : Vec4 := ⟨position.x, position.y, position.z, 0⟩
  let q_tmp := quat_mult qr q_pos
  let qr' := quat_mult q_tmp qr_conj
  ⟨qr'.x, qr'.y, qr'.z⟩

/-- GLSL toSpherical from the Kerr shaders: (rho, theta, phi). -/
def toSpherical (p : Vec3) : Vec3 :=
  let rho := length p
  let theta := atan2 p.z p.x
  let phi := Real.arcsin (clampf (p.y / rho) (-1) 1)
  ⟨rho, theta, phi⟩

namespace PP

/-- Uniform block of kerr_postprocess.glsl (kerr_blackhole.glsl declares the
same fields plus a background texture it never reads). -/
structure Uniforms where
  uResolution : Vec2
  uCamPos : Vec3
  uTime : ℝ
  uMass : ℝ
  uSpin : ℝ
  uDiskInner : ℝ
  uDiskOuter : ℝ
  uDiskThickness : ℝ
  uDiskRotationSpeed : ℝ
  uGlowIntensity : ℝ

/-- STEP_SIZE constant of both Kerr shaders. -/
def STEP_SIZE : ℝ := 0.1

/-- MAX_STEPS constant of both Kerr shaders. -/
def MAX_STEPS : ℕ := 300

/-- Geodesic acceleration accel(h2, pos) of both Kerr shaders. -/
def accel (h2 : ℝ) (pos : Vec3) : Vec3 :=
  let r2 := dot3 pos pos
  let r := Real.sqrt r2
  if r < 1 then ⟨0, 0, 0⟩
  else
    let r5 := r2 ^ (2.5 : ℝ)
    (-1.5 : ℝ) * h2 * pos / r5

/-- The turbulence accumulation loop of adiskColor: five octaves of simplex
noise over the scaled spherical coordinate, the coordinate drifting by
uTime * uDiskRotationSpeed with alternating sign per octave. -/
def noiseIter (u : Uniforms) (st : ℝ × Vec3) (i : ℕ) : ℝ × Vec3 :=
  let noise := st.1 * (0.5 * snoise (st.2 * ((i : ℝ) ^ (2:ℝ) * 0.8)) + 0.5)
  let sc := st.2
  if i % 2 = 0 then (noise, ⟨sc.x, sc.y + u.uTime * u.uDiskRotationSpeed, sc.z⟩)
  else (noise, ⟨sc.x, sc.y - u.uTime * u.uDiskRotationSpeed, sc.z⟩)

/-- The density value that adiskColor has accumulated by the time it reaches
its contribution line, with each early return modelled as density 0. -/
def adiskDensity (u : Uniforms) (pos : Vec3) : ℝ :=
  let innerRadius := u.uDiskInner
  let outerRadius := u.uDiskOuter
  let density0 :=
    max 0 (1 - length (pos / (⟨outerRadius, u.uDiskThickness, outerRadius⟩ : Vec3)))
  if density0 < 0.001 then 0
  else
    let density1 := density0 * (1 - |pos.y| / u.uDiskThickness) ^ (2:ℝ)
    let density2 := density1 * smoothstepf innerRadius (innerRadius * 1.1) (length pos)
    if density2 < 0.001 then 0
    else
      let sphericalCoord := toSpherical pos
      let scX := sphericalCoord.x
      (density2 * (1 / scX ^ (4:ℝ))) * 32000

/-- The turbulence factor of adiskColor at a disk position. -/
def adiskNoise (u : Uniforms) (pos : Vec3) : ℝ :=
  let sphericalCoord0 := toSpherical pos
  let sphericalCoord : Vec3 := ⟨sphericalCoord0.x, sphericalCoord0.y * 2, sphericalCoord0.z * 4⟩
  ((List.range 5).foldl (noiseIter u) (1, sphericalCoord)).1

/-- The Doppler-shifted, temperature-blended, beamed disk color of adiskColor
at a disk position, before the density and turbulence weights. -/
def adiskBaseColor (u : Uniforms) (pos : Vec3) : Vec3 :=
  let innerRadius := u.uDiskInner
  let outerRadius := u.uDiskOuter
  let r := length2 ⟨pos.x, pos.z⟩
  let angle := atan2 pos.z pos.x
  let temp0 := smoothstepf outerRadius innerRadius r
  let temp := temp0 ^ (0.75 : ℝ)
  let orbitalVel := 1 / Real.sqrt (max r 0.1)
  let rotAngle := angle - u.uTime * u.uDiskRotationSpeed * orbitalVel
  let dopplerFactor := Real.sin rotAngle
  let beaming := 1 + dopplerFactor * 0.7
  let blueshifted : Vec3 := ⟨0.3, 0.6, 2.0⟩
  let neutral : Vec3 := ⟨1.2, 1.0, 0.7⟩
  let redshifted : Vec3 := ⟨2.0, 0.3, 0.05⟩
  let diskColor0 :=
    if 0 < dopplerFactor then mix3 neutral blueshifted dopplerFactor
    else mix3 neutral redshifted (-dopplerFactor)
  let diskColor1 := mix3 diskColor0 ⟨1.8, 1.6, 1.4⟩ (temp * 0.8)
  let brightness := (temp * 12 + 2) * beaming
  brightness * diskColor1

/-- GLSL adiskColor(pos, inout color, inout alpha) of both Kerr shaders.
The two inout parameters become an explicit state pair; the source never
assigns alpha, so it is returned unchanged on every path. -/
def adiskColor (u : Uniforms) (pos color : Vec3) (alpha : ℝ) : Vec3 × ℝ :=
  let innerRadius := u.uDiskInner
  let outerRadius := u.uDiskOuter
  let density0 :=
    max 0 (1 - length (pos / (⟨outerRadius, u.uDiskThickness, outerRadius⟩ : Vec3)))
  if density0 < 0.001 then (color, alpha)
  else
    let density1 := density0 * (1 - |pos.y| / u.uDiskThickness) ^ (2:ℝ)
    let density2 := density1 * smoothstepf innerRadius (innerRadius * 1.1) (length pos)
    if density2 < 0.001 then (color, alpha)
    else
      let sphericalCoord := toSpherical pos
      let density := (density2 * (1 / sphericalCoord.x ^ (4:ℝ))) * 32000
      let noise := adiskNoise u pos
      let diskColor := adiskBaseColor u pos
      (color + density * 0.8 * diskColor * alpha * |noise|, alpha)

/-- The equirectangular UV that sampleBackground of kerr_postprocess.glsl
computes: the incoming direction is first rotated about the y axis by
uTime * 10 degrees, then mapped through 0.5 - atan2 / 2 pi and 0.5 - asin / pi. -/
def sampleBackgroundUV (u : Uniforms) (dir0 : Vec3) : Vec2 :=
  let dir := rotateVector dir0 ⟨0, 1, 0⟩ (u.uTime * 10)
  ⟨0.5 - atan2 dir.z dir.x / (2 * π), 0.5 - Real.arcsin (clampf dir.y (-1) 1) / π⟩

/-- GLSL sampleBackground of kerr_postprocess.glsl: three octaves of
sine-hash stars over the equirectangular UV. -/
def sampleBackground (u : Uniforms) (dir : Vec3) : Vec3 :=
  let uv := sampleBackgroundUV u dir
  let stars := (List.range 3).foldl (fun st i =>
    let scale := (2:ℝ) ^ ((i : ℝ))
    let coord := uv * (30 * scale)
    let n := fract (Real.sin (dot2 coord ⟨127.1, 311.7⟩) * 43758.5453123)
    st + stepf (0.995 - (i : ℝ) * 0.003) n * (1 - (i : ℝ) * 0.25)) 0
  (⟨stars, stars, stars⟩ : Vec3) * (0.9 : ℝ)

/-- How a traceColor ray run ends: horizon capture, escape past r = 100, or
exhaustion of the MAX_STEPS budget. -/
inductive Exit where
  | absorbed : Exit
  | escaped : Exit
  | exhausted : Exit
deriving DecidableEq

/-- Mutable per-ray state of the traceColor loop. -/
structure TraceState where
  pos : Vec3
  dir : Vec3
  color : Vec3
  alpha : ℝ

/-- The event horizon radius tested by traceColor: 2.0 * uMass * (1.0 - uSpin * 0.5). -/
def eventHorizon (u : Uniforms) : ℝ := 2 * u.uMass * (1 - u.uSpin * 0.5)

/-- One pass of the traceColor loop body past the two termination tests:
accumulate the disk, bend the direction, advance the position. -/
def traceStep (u : Uniforms) (h2 : ℝ) (s : TraceState) : TraceState :=
  let ca := adiskColor u s.pos s.color s.alpha
  let acc := accel h2 s.pos
  let dir := s.dir + acc
  { pos := s.pos + dir, dir := dir, color := ca.1, alpha := ca.2 }

/-- The traceColor loop as fuel-bounded recursion. The Vec3 component is the
color the source returns; the Exit tag records which branch ended the loop. -/
def traceLoop (u : Uniforms) (h2 : ℝ) : ℕ → TraceState → Vec3 × Exit
  | 0, s => (s.color + sampleBackground u (normalize s.dir) * s.alpha, Exit.exhausted)
  | n + 1, s =>
    if length s.pos < eventHorizon u then (s.color, Exit.absorbed)
    else if 100 < length s.pos then
      (s.color + sampleBackground u (normalize s.dir) * s.alpha, Exit.escaped)
    else traceLoop u h2 n (traceStep u h2 s)

/-- GLSL traceColor(pos, dir) of both Kerr shaders. -/
def traceColor (u : Uniforms) (pos dir0 : Vec3) : Vec3 × Exit :=
  let dir := dir0 * STEP_SIZE
  let h := cross pos dir
  let h2 := dot3 h h
  traceLoop u h2 MAX_STEPS ⟨pos, dir, ⟨0, 0, 0⟩, 1⟩

/-- GLSL lookAt of both Kerr shaders, returned as the three basis columns. -/
def lookAt (origin target : Vec3) (roll : ℝ) : Vec3 × Vec3 × Vec3 :=
  let rr : Vec3 := ⟨Real.sin roll, Real.cos roll, 0⟩
  let ww := normalize (target - origin)
  let uu := normalize (cross ww rr)
  let vv := normalize (cross uu ww)
  (uu, vv, ww)

/-- Column-major mat3 * vec3 as produced by lookAt. -/
def mat3mul (m : Vec3 × Vec3 × Vec3) (v : Vec3) : Vec3 :=
  m.1 * v.x + m.2.1 * v.y + m.2.2 * v.z

/-- GLSL mainImage of kerr_postprocess.glsl (main of kerr_blackhole.glsl is
the same pixel function with uv derived from gl_FragCoord). -/
def mainImage (u : Uniforms) (inputColor : Vec4) (uv : Vec2) : Vec4 :=
  let cameraPos := u.uCamPos
  let target : Vec3 := ⟨0, 0, 0⟩
  let view := lookAt cameraPos target 0
  let screenUv0 := uv * (2:ℝ) - (1:ℝ)
  let screenUv : Vec2 := ⟨screenUv0.x * (u.uResolution.x / u.uResolution.y), screenUv0.y⟩
  let dir0 := normalize ⟨-screenUv.x, screenUv.y, 1⟩
  let dir := mat3mul view dir0
  let finalColor0 := (traceColor u cameraPos dir).1
  let vignette := 1 - length2 screenUv * 0.15
  let finalColor1 := vignette * finalColor0
  let finalColor : Vec3 :=
    ⟨finalColor1.x ^ (0.85:ℝ), finalColor1.y ^ (0.85:ℝ), finalColor1.z ^ (0.85:ℝ)⟩
  ⟨finalColor.x, finalColor.y, finalColor.z, 1⟩

end PP

namespace Grav

/-- Uniform block of gravitational_lensing.glsl (the background texture it
declares is never sampled). -/
structure Uniforms where
  uTime : ℝ
  uResolution : Vec2
  uCamPos : Vec3
  uMass : ℝ
  uSpin : ℝ
  uDiskInner : ℝ
  uDiskOuter : ℝ
  uDiskThickness : ℝ
  uDiskRotationSpeed : ℝ
  uGlowIntensity : ℝ

/-- SCHWARZSCHILD_RADIUS constant of gravitational_lensing.glsl. -/
def SCHWARZSCHILD_RADIUS : ℝ := 2

/-- PHOTON_SPHERE constant of gravitational_lensing.glsl. -/
def PHOTON_SPHERE : ℝ := 3

/-- MAX_STEPS constant of gravitational_lensing.glsl. -/
def MAX_STEPS : ℕ := 256

/-- STEP_SIZE constant of gravitational_lensing.glsl. -/
def STEP_SIZE : ℝ := 0.1

/-- GLSL hash(p) of gravitational_lensing.glsl. -/
def hash (p : Vec2) : ℝ := fract (Real.sin (dot2 p ⟨127.1, 311.7⟩) * 43758.5453123)

/-- GLSL value noise(p) of gravitational_lensing.glsl. -/
def noise (p : Vec2) : ℝ :=
  let i : Vec2 := ⟨floorR p.x, floorR p.y⟩
  let f0 : Vec2 := ⟨fract p.x, fract p.y⟩
  let f : Vec2 := ⟨f0.x * f0.x * (3 - 2 * f0.x), f0.y * f0.y * (3 - 2 * f0.y)⟩
  let a := hash i
  let b := hash ⟨i.x + 1, i.y⟩
  let c := hash ⟨i.x, i.y + 1⟩
  let d := hash ⟨i.x + 1, i.y + 1⟩
  mixf (mixf a b f.x) (mixf c d f.x) f.y

/-- GLSL metricCoeff(r) of gravitational_lensing.glsl. -/
def metricCoeff (r : ℝ) : ℝ := 1 - SCHWARZSCHILD_RADIUS / r

/-- GLSL geodesicAcceleration(pos, vel) of gravitational_lensing.glsl. -/
def geodesicAcceleration (pos vel : Vec3) : Vec3 :=
  let r := length pos
  if r < SCHWARZSCHILD_RADIUS * 1.01 then ⟨0, 0, 0⟩
  else
    let rhat := pos / r
    let vr := dot3 vel rhat
    let factor := SCHWARZSCHILD_RADIUS / (r * r * metricCoeff r)
    let accel_radial := (-factor) * (dot3 vel vel - vr * vr) * rhat
    let accel_tangential := (-factor) * 2 * vr * (vel - vr * rhat)
    accel_radial + accel_tangential

/-- The position/velocity update of rk4Step before the final velocity
normalization. -/
def rk4Raw (pos vel : Vec3) (dt : ℝ) : Vec3 × Vec3 :=
  let k1_v := geodesicAcceleration pos vel
  let k1_p := vel
  let k2_v := geodesicAcceleration (pos + (0.5 * dt) * k1_p) (vel + (0.5 * dt) * k1_v)
  let k2_p := vel + (0.5 * dt) * k1_v
  let k3_v := geodesicAcceleration (pos + (0.5 * dt) * k2_p) (vel + (0.5 * dt) * k2_v)
  let k3_p := vel + (0.5 * dt) * k2_v
  let k4_v := geodesicAcceleration (pos + dt * k3_p) (vel + dt * k3_v)
  let k4_p := vel + dt * k3_v
  (pos + (dt / 6) * (k1_p + (2:ℝ) * k2_p + (2:ℝ) * k3_p + k4_p),
   vel + (dt / 6) * (k1_v + (2:ℝ) * k2_v + (2:ℝ) * k3_v + k4_v))

/-- GLSL rk4Step(inout pos, inout vel, dt) of gravitational_lensing.glsl:
the raw RK4 update followed by vel = normalize(vel). -/
def rk4Step (pos vel : Vec3) (dt : ℝ) : Vec3 × Vec3 :=
  let pv := rk4Raw pos vel dt
  (pv.1, normalize pv.2)

/-- GLSL intersectDisk(pos) of gravitational_lensing.glsl (the out hitPoint
is pos itself). -/
def intersectDisk (u : Uniforms) (pos : Vec3) : Prop :=
  |pos.z| < u.uDiskThickness ∧ u.uDiskInner ≤ length2 ⟨pos.x, pos.y⟩ ∧
    length2 ⟨pos.x, pos.y⟩ ≤ u.uDiskOuter

instance (u : Uniforms) (pos : Vec3) : Decidable (intersectDisk u pos) := by
  unfold intersectDisk
  infer_instance

/-- GLSL getDiskColor(hitPoint) of gravitational_lensing.glsl. -/
def getDiskColor (u : Uniforms) (hitPoint : Vec3) : Vec3 :=
  let r := length2 ⟨hitPoint.x, hitPoint.y⟩
  let angle := atan2 hitPoint.y hitPoint.x
  let temp0 := smoothstepf u.uDiskOuter u.uDiskInner r
  let temp := temp0 ^ (0.75 : ℝ)
  let orbitalVel := 1 / Real.sqrt (max r 0.1)
  let rotAngle := angle - u.uTime * u.uDiskRotationSpeed * orbitalVel
  let dopplerFactor := Real.sin rotAngle
  let beaming := 1 + dopplerFactor * 0.7
  let blueshifted : Vec3 := ⟨0.3, 0.6, 1.3⟩
  let neutral : Vec3 := ⟨1.0, 0.9, 0.6⟩
  let redshifted : Vec3 := ⟨1.3, 0.3, 0.05⟩
  let diskColor0 :=
    if 0 < dopplerFactor then mix3 neutral blueshifted (dopplerFactor * 0.9)
    else mix3 neutral redshifted (-dopplerFactor * 0.9)
  let diskColor1 := mix3 diskColor0 ⟨1.5, 1.4, 1.2⟩ (temp * 0.8)
  let brightness := (temp * 5 + 0.5) * beaming
  let diskColor2 := brightness * diskColor1
  let turb := noise ⟨r * 8, angle * 5 + u.uTime * 0.5⟩
  let diskColor3 := ((0.6 + turb * 0.8 : ℝ)) * diskColor2
  let innerEdge := smoothstepf (u.uDiskInner - 0.2) (u.uDiskInner + 0.3) r
  let outerEdge := 1 - smoothstepf (u.uDiskOuter - 0.5) (u.uDiskOuter + 0.1) r
  let diskColor4 := (innerEdge * outerEdge) * diskColor3
  let glow := Real.exp (-(r - u.uDiskInner) * 2) * u.uGlowIntensity
  diskColor4 + glow * (⟨1.2, 0.9, 0.5⟩ : Vec3)

/-- GLSL sampleBackground(dir) of gravitational_lensing.glsl: the claimed
equirectangular UV followed by three octaves of procedural stars. -/
def sampleBackground (dir : Vec3) : Vec3 :=
  let uv : Vec2 := ⟨atan2 dir.z dir.x / (2 * π) + 0.5,
                    Real.arcsin (clampf dir.y (-1) 1) / π + 0.5⟩
  let stars := (List.range 3).foldl (fun st i =>
    let scale := (2:ℝ) ^ ((i : ℝ))
    let coord := uv * (30 * scale)
    let n := noise coord
    st + stepf (0.995 - (i : ℝ) * 0.003) n * (1 - (i : ℝ) * 0.25)) 0
  (⟨stars, stars, stars⟩ : Vec3) * (0.9 : ℝ)

/-- The ray-march loop of main in gravitational_lensing.glsl: the Vec3 is the
finalColor before post-processing; fuel 0 is the !hitSomething fallthrough. -/
def mainLoop (u : Uniforms) : ℕ → Vec3 → Vec3 → Vec3
  | 0, _, vel => sampleBackground (normalize vel)
  | n + 1, pos, vel =>
    if length pos < SCHWARZSCHILD_RADIUS * 1.05 then ⟨0, 0, 0⟩
    else if 100 < length pos then sampleBackground (normalize vel)
    else if intersectDisk u pos then getDiskColor u pos
    else
      let pv := rk4Step pos vel STEP_SIZE
      mainLoop u n pv.1 pv.2

end Grav

namespace Lens

/-- GLSL kerrEventHorizon() of the Kerr-inspired lensing shader
(shaders/blackhole/gravitational_lensing.glsl), as a function of the uMass
and uSpin uniforms it reads. -/
def kerrEventHorizon (uMass uSpin : ℝ) : ℝ :=
  let a := clampf uSpin 0 0.999
  let m := max uMass 0.0001
  m + Real.sqrt (max (m * m - (a * m) * (a * m)) 0)

/-- The equirectangular UV shared by sampleBackground and proceduralStars of
the Kerr-inspired lensing shader. -/
def sampleBackgroundUV (dir : Vec3) : Vec2 :=
  ⟨atan2 dir.z dir.x / (2 * π) + 0.5, Real.arcsin (clampf dir.y (-1) 1) / π + 0.5⟩

/-- GLSL sampleBackground(dir) of the Kerr-inspired lensing shader: the bound
background texture sampled at the equirectangular UV. -/
def sampleBackground (tex : Vec2 → Vec3) (dir : Vec3) : Vec3 := tex (sampleBackgroundUV dir)

end Lens

namespace TS

/-- kerrEventHorizon(mass, spin) of lib/blackhole/physics.ts:
r+ = M + sqrt(M^2 - a^2) with a = spin * M. -/
def kerrEventHorizon (mass spin : ℝ) : ℝ :=
  let a := spin * mass
  mass + Real.sqrt (mass * mass - a * a)

end TS

/-- Modelled from the spec (section 4.2 / claim C2 wording): the acceleration
law a(r) = -k * h^2 * rhat / r^5 with k = 1.5, r = |pos| and rhat = pos / r.
This is the claim's formula, stated for comparison with the accel of the
shaders; it is not a transcription of any source function. -/
def accelSpec (h2 : ℝ) (pos : Vec3) : Vec3 :=
  ((-1.5 : ℝ) * h2) * (pos / length pos) / (length pos ^ (5:ℕ))

/-- Modelled from the spec (section 4.5 / claim C7 wording): the
equirectangular mapping u = atan2(dz, dx) / 2 pi + 0.5,
v = asin(clamp(dy, -1, 1)) / pi + 0.5. Stated for comparison with the UV
computations of the shaders. -/
def specEquirectUV (d : Vec3) : Vec2 :=
  ⟨atan2 d.z d.x / (2 * π) + 0.5, Real.arcsin (clampf d.y (-1) 1) / π + 0.5⟩

/-- A concrete uniform set: resolution (1,1), camera (0,0,15), time 0, mass 1,
spin 0, disk inner 2.5 / outer 10 / thickness 1 / rotation speed 0, glow 1. -/
def uA : PP.Uniforms := ⟨⟨1, 1⟩, ⟨0, 0, 15⟩, 0, 1, 0, 2.5, 10, 1, 0, 1⟩

/-- A concrete uniform set for the gravitational_lensing shader: time 0,
resolution (1,1), camera (0,0,15), mass 1, spin 0, disk inner 2.5 / outer 10 /
thickness 1 / rotation speed 0, glow 1. -/
def uG : Grav.Uniforms := ⟨0, ⟨1, 1⟩, ⟨0, 0, 15⟩, 1, 0, 2.5, 10, 1, 0, 1⟩

/-- Componentwise order on Vec3, used to state that disk sampling only ever
adds light to the accumulated color. -/
instance : LE Vec3 := ⟨fun a b => a.x ≤ b.x ∧ a.y ≤ b.y ∧ a.z ≤ b.z⟩

instance : Preorder Vec3 where
  le_refl a := ⟨le_refl a.x, le_refl a.y, le_refl a.z⟩
  le_trans a b c hab hbc :=
    ⟨hab.1.trans hbc.1, hab.2.1.trans hbc.2.1, hab.2.2.trans hbc.2.2⟩

/-! Componentwise unfolding lemmas for the vector operations. -/

@[simp] lemma Vec3_add_def (a b : Vec3) : a + b = ⟨a.x + b.x, a.y + b.y, a.z + b.z⟩ := rfl

@[simp] lemma Vec3_sub_def (a b : Vec3) : a - b = ⟨a.x - b.x, a.y - b.y, a.z - b.z⟩ := rfl

@[simp] lemma Vec3_neg_def (a : Vec3) : -a = ⟨-a.x, -a.y, -a.z⟩ := rfl

@[simp] lemma Vec3_mul_def (a b : Vec3) : a * b = ⟨a.x * b.x, a.y * b.y, a.z * b.z⟩ := rfl

@[simp] lemma smul_Vec3_def (s : ℝ) (v : Vec3) : s * v = ⟨s * v.x, s * v.y, s * v.z⟩ := rfl

@[simp] lemma Vec3_smul_def (v : Vec3) (s : ℝ) : v * s = ⟨v.x * s, v.y * s, v.z * s⟩ := rfl

@[simp] lemma Vec3_div_def (a b : Vec3) : a / b = ⟨a.x / b.x, a.y / b.y, a.z / b.z⟩ := rfl

@[simp] lemma Vec3_sdiv_def (v : Vec3) (s : ℝ) : v / s = ⟨v.x / s, v.y / s, v.z / s⟩ := rfl

@[simp] lemma Vec3_sadd_def (v : Vec3) (s : ℝ) : v + s = ⟨v.x + s, v.y + s, v.z + s⟩ := rfl

@[simp] lemma Vec3_ssub_def (v : Vec3) (s : ℝ) : v - s = ⟨v.x - s, v.y - s, v.z - s⟩ := rfl

@[simp] lemma ssub_Vec3_def (s : ℝ) (v : Vec3) : s - v = ⟨s - v.x, s - v.y, s - v.z⟩ := rfl

@[simp] lemma Vec4_add_def (a b : Vec4) :
    a + b = ⟨a.x + b.x, a.y + b.y, a.z + b.z, a.w + b.w⟩ := rfl

@[simp] lemma Vec4_sub_def (a b : Vec4) :
    a - b = ⟨a.x - b.x, a.y - b.y, a.z - b.z, a.w - b.w⟩ := rfl

@[simp] lemma Vec4_neg_def (a : Vec4) : -a = ⟨-a.x, -a.y, -a.z, -a.w⟩ := rfl

@[simp] lemma Vec4_mul_def (a b : Vec4) :
    a * b = ⟨a.x * b.x, a.y * b.y, a.z * b.z, a.w * b.w⟩ := rfl

@[simp] lemma smul_Vec4_def (s : ℝ) (v : Vec4) :
    s * v = ⟨s * v.x, s * v.y, s * v.z, s * v.w⟩ := rfl

@[simp] lemma Vec4_smul_def (v : Vec4) (s : ℝ) :
    v * s = ⟨v.x * s, v.y * s, v.z * s, v.w * s⟩ := rfl

@[simp] lemma Vec4_sadd_def (v : Vec4) (s : ℝ) :
    v + s = ⟨v.x + s, v.y + s, v.z + s, v.w + s⟩ := rfl

@[simp] lemma sadd_Vec4_def (s : ℝ) (v : Vec4) :
    s + v = ⟨s + v.x, s + v.y, s + v.z, s + v.w⟩ := rfl

@[simp] lemma ssub_Vec4_def (s : ℝ) (v : Vec4) :
    s - v = ⟨s - v.x, s - v.y, s - v.z, s - v.w⟩ := rfl

@[simp] lemma Vec2_smul_def (v : Vec2) (s : ℝ) : v * s = ⟨v.x * s, v.y * s⟩ := rfl

@[simp] lemma Vec2_ssub_def (v : Vec2) (s : ℝ) : v - s = ⟨v.x - s, v.y - s⟩ := rfl

@[simp] lemma Vec3_le_def (a b : Vec3) : a ≤ b ↔ a.x ≤ b.x ∧ a.y ≤ b.y ∧ a.z ≤ b.z :=
  Iff.rfl

/-! General helper lemmas about the GLSL builtins. -/

lemma rpow_two (x : ℝ) : x ^ (2:ℝ) = x ^ (2:ℕ) := by
  rw [show ((2:ℝ)) = ((2:ℕ) : ℝ) by norm_num, Real.rpow_natCast]

lemma rpow_four (x : ℝ) : x ^ (4:ℝ) = x ^ (4:ℕ) := by
  rw [show ((4:ℝ)) = ((4:ℕ) : ℝ) by norm_num, Real.rpow_natCast]

lemma sqrt_eq_of_sq (b a : ℝ) (hb : 0 ≤ b) (h : b * b = a) : Real.sqrt a = b := by
  rw [← h]
  exact Real.sqrt_mul_self hb

lemma length_eval (x y z : ℝ) : length ⟨x, y, z⟩ = Real.sqrt (x * x + y * y + z * z) := rfl

lemma length_axis (x : ℝ) (hx : 0 ≤ x) : length ⟨x, 0, 0⟩ = x := by
  rw [length_eval]
  exact sqrt_eq_of_sq x _ hx (by ring)

lemma length_nonneg (v : Vec3) : 0 ≤ length v := Real.sqrt_nonneg _

lemma length2_eval (x y : ℝ) : length2 ⟨x, y⟩ = Real.sqrt (x * x + y * y) := rfl

lemma length2_axis (x : ℝ) (hx : 0 ≤ x) : length2 ⟨x, 0⟩ = x := by
  rw [length2_eval]
  exact sqrt_eq_of_sq x _ hx (by ring)

lemma clampf_mem (x lo hi : ℝ) (h : lo ≤ hi) :
    lo ≤ clampf x lo hi ∧ clampf x lo hi ≤ hi :=
  ⟨le_min (le_max_right x lo) h, min_le_right _ _⟩

lemma smoothstepf_eq (e0 e1 x : ℝ) :
    smoothstepf e0 e1 x =
      clampf ((x - e0) / (e1 - e0)) 0 1 * clampf ((x - e0) / (e1 - e0)) 0 1 *
        (3 - 2 * clampf ((x - e0) / (e1 - e0)) 0 1) := rfl

lemma smoothstepf_mem (e0 e1 x : ℝ) :
    0 ≤ smoothstepf e0 e1 x ∧ smoothstepf e0 e1 x ≤ 1 := by
  rw [smoothstepf_eq]
  obtain ⟨h0, h1⟩ := clampf_mem ((x - e0) / (e1 - e0)) 0 1 (by norm_num)
  set t := clampf ((x - e0) / (e1 - e0)) 0 1
  constructor
  · nlinarith
  · nlinarith [mul_nonneg (mul_nonneg (sub_nonneg.2 h1) (sub_nonneg.2 h1))
      (show (0:ℝ) ≤ 1 + 2 * t by linarith)]

lemma smoothstepf_eq_one (e0 e1 x : ℝ) (hd : 0 < e1 - e0) (h : e1 ≤ x) :
    smoothstepf e0 e1 x = 1 := by
  rw [smoothstepf_eq]
  have hr : 1 ≤ (x - e0) / (e1 - e0) := by
    rw [le_div_iff hd]
    linarith
  have : clampf ((x - e0) / (e1 - e0)) 0 1 = 1 := by
    unfold clampf
    rw [max_eq_left (by linarith : (0:ℝ) ≤ (x - e0) / (e1 - e0))]
    exact min_eq_right hr
  rw [this]
  norm_num

lemma mixf_nonneg (a b t : ℝ) (ha : 0 ≤ a) (hb : 0 ≤ b) (h0 : 0 ≤ t) (h1 : t ≤ 1) :
    0 ≤ mixf a b t := by
  unfold mixf
  nlinarith

lemma mix3_zero (a b : Vec3) : mix3 a b 0 = a := by
  simp [mix3, mixf]

lemma atan2_pos_x (y x : ℝ) (hx : 0 < x) : atan2 y x = Real.arctan (y / x) := by
  simp [atan2, hx]

lemma atan2_zero_pos : atan2 0 3.05 = 0 := by
  rw [atan2_pos_x 0 3.05 (by norm_num)]
  simp

lemma rotateVector_angle_zero (p axis : Vec3) : rotateVector p axis 0 = p := by
  simp [rotateVector, quadFromAxisAngle, quadConj, quat_mult]

namespace PP

lemma accel_h2_zero (pos : Vec3) : accel 0 pos = ⟨0, 0, 0⟩ := by
  unfold accel
  dsimp only
  split_ifs with h
  · rfl
  · simp

lemma toSpherical_x (pos : Vec3) : (toSpherical pos).x = length pos := rfl

/-- adiskColor decomposed: it always returns alpha unchanged and adds the
product of its density, base color, turbulence and the incoming alpha. -/
lemma adiskColor_eq (u : Uniforms) (pos color : Vec3) (alpha : ℝ) :
    adiskColor u pos color alpha =
      (color + adiskDensity u pos * 0.8 * adiskBaseColor u pos * alpha *
        |adiskNoise u pos|, alpha) := by
  unfold adiskColor adiskDensity
  dsimp only
  split_ifs with h1 h2
  · simp
  · simp
  · rfl

lemma adiskDensity_nonneg (u : Uniforms) (pos : Vec3) : 0 ≤ adiskDensity u pos := by
  unfold adiskDensity
  dsimp only
  split_ifs with h1 h2
  · exact le_refl 0
  · exact le_refl 0
  · push_neg at h2
    refine mul_nonneg (mul_nonneg (by linarith) ?_) (by norm_num)
    exact div_nonneg zero_le_one (Real.rpow_nonneg (length_nonneg pos) _)

lemma adiskBaseColor_nonneg (u : Uniforms) (pos : Vec3) :
    (⟨0, 0, 0⟩ : Vec3) ≤ adiskBaseColor u pos := by
  unfold adiskBaseColor
  dsimp only
  have htemp0 := smoothstepf_mem u.uDiskOuter u.uDiskInner (length2 ⟨pos.x, pos.z⟩)
  set temp0 := smoothstepf u.uDiskOuter u.uDiskInner (length2 ⟨pos.x, pos.z⟩) with ht0
  set temp := temp0 ^ (0.75 : ℝ) with ht
  have h0 : 0 ≤ temp := Real.rpow_nonneg htemp0.1 _
  have h1 : temp ≤ 1 := Real.rpow_le_one htemp0.1 htemp0.2 (by norm_num)
  set doppler := Real.sin (atan2 pos.z pos.x -
    u.uTime * u.uDiskRotationSpeed * (1 / Real.sqrt (max (length2 ⟨pos.x, pos.z⟩) 0.1)))
    with hd
  have hd0 : -1 ≤ doppler := Real.neg_one_le_sin _
  have hd1 : doppler ≤ 1 := Real.sin_le_one _
  have hbeam : 0 ≤ 1 + doppler * 0.7 := by nlinarith
  have hbr : 0 ≤ (temp * 12 + 2) * (1 + doppler * 0.7) :=
    mul_nonneg (by linarith) hbeam
  have hw0 : 0 ≤ temp * 0.8 := by linarith
  have hw1 : temp * 0.8 ≤ 1 := by linarith
  split_ifs with hdop
  · refine ⟨?_, ?_, ?_⟩ <;>
      simp only [mix3, mixf] <;>
      exact mul_nonneg hbr (mixf_nonneg _ _ _
        (mixf_nonneg _ _ _ (by norm_num) (by norm_num) hdop.le hd1) (by norm_num) hw0 hw1)
  · push_neg at hdop
    refine ⟨?_, ?_, ?_⟩ <;>
      simp only [mix3, mixf] <;>
      exact mul_nonneg hbr (mixf_nonneg _ _ _
        (mixf_nonneg _ _ _ (by norm_num) (by norm_num) (by linarith) (by linarith))
        (by norm_num) hw0 hw1)

/-- Disk sampling only adds to the accumulated color when alpha is
nonnegative. -/
lemma adiskColor_mono (u : Uniforms) (pos color : Vec3) (alpha : ℝ) (h : 0 ≤ alpha) :
    color ≤ (adiskColor u pos color alpha).1 := by
  rw [adiskColor_eq]
  have hd := adiskDensity_nonneg u pos
  obtain ⟨hb1, hb2, hb3⟩ := adiskBaseColor_nonneg u pos
  have hb1' : (0:ℝ) ≤ (adiskBaseColor u pos).x := hb1
  have hb2' : (0:ℝ) ≤ (adiskBaseColor u pos).y := hb2
  have hb3' : (0:ℝ) ≤ (adiskBaseColor u pos).z := hb3
  have hn : (0:ℝ) ≤ |adiskNoise u pos| := abs_nonneg _
  have key : ∀ c : ℝ, 0 ≤ c →
      0 ≤ adiskDensity u pos * 0.8 * c * alpha * |adiskNoise u pos| := fun c hc =>
    mul_nonneg (mul_nonneg (mul_nonneg (mul_nonneg hd (by norm_num)) hc) h) hn
  refine ⟨?_, ?_, ?_⟩ <;> simp only [Vec3_add_def, smul_Vec3_def, Vec3_smul_def]
  · have := key _ hb1'
    linarith
  · have := key _ hb2'
    linarith
  · have := key _ hb3'
    linarith

lemma traceStep_alpha (u : Uniforms) (h2 : ℝ) (s : TraceState) :
    (traceStep u h2 s).alpha = s.alpha := by
  simp [traceStep, adiskColor_eq]

lemma traceStep_dir (u : Uniforms) (h2 : ℝ) (s : TraceState) :
    (traceStep u h2 s).dir = s.dir + accel h2 s.pos := rfl

lemma traceStep_pos (u : Uniforms) (h2 : ℝ) (s : TraceState) :
    (traceStep u h2 s).pos = s.pos + (s.dir + accel h2 s.pos) := rfl

lemma traceStep_color (u : Uniforms) (h2 : ℝ) (s : TraceState) :
    (traceStep u h2 s).color = (adiskColor u s.pos s.color s.alpha).1 := rfl

lemma traceLoop_absorbed (u : Uniforms) (h2 : ℝ) (n : ℕ) (s : TraceState)
    (h : length s.pos < eventHorizon u) :
    traceLoop u h2 (n + 1) s = (s.color, Exit.absorbed) := by
  simp [traceLoop, h]

lemma traceLoop_escaped (u : Uniforms) (h2 : ℝ) (n : ℕ) (s : TraceState)
    (h : ¬ length s.pos < eventHorizon u) (h' : 100 < length s.pos) :
    traceLoop u h2 (n + 1) s =
      (s.color + sampleBackground u (normalize s.dir) * s.alpha, Exit.escaped) := by
  simp [traceLoop, h, h']

lemma traceLoop_cont (u : Uniforms) (h2 : ℝ) (n : ℕ) (s : TraceState)
    (h : ¬ length s.pos < eventHorizon u) (h' : ¬ 100 < length s.pos) :
    traceLoop u h2 (n + 1) s = traceLoop u h2 n (traceStep u h2 s) := by
  simp [traceLoop, h, h']

lemma adiskDensity_guards (u : Uniforms) (pos : Vec3) (h : 0 < adiskDensity u pos) :
    0.001 ≤ max 0 (1 - length (pos / (⟨u.uDiskOuter, u.uDiskThickness, u.uDiskOuter⟩ : Vec3))) ∧
    0.001 ≤ max 0 (1 - length (pos / (⟨u.uDiskOuter, u.uDiskThickness, u.uDiskOuter⟩ : Vec3))) *
      (1 - |pos.y| / u.uDiskThickness) ^ (2:ℝ) *
      smoothstepf u.uDiskInner (u.uDiskInner * 1.1) (length pos) := by
  unfold adiskDensity at h
  dsimp only at h
  split_ifs at h with g1 g2
  · norm_num at h
  · norm_num at h
  · exact ⟨le_of_not_lt g1, le_of_not_lt g2⟩

lemma adiskDensity_value (u : Uniforms) (pos : Vec3)
    (g1 : ¬ max 0 (1 - length (pos / (⟨u.uDiskOuter, u.uDiskThickness, u.uDiskOuter⟩ : Vec3))) < 0.001)
    (g2 : ¬ max 0 (1 - length (pos / (⟨u.uDiskOuter, u.uDiskThickness, u.uDiskOuter⟩ : Vec3))) *
      (1 - |pos.y| / u.uDiskThickness) ^ (2:ℝ) *
      smoothstepf u.uDiskInner (u.uDiskInner * 1.1) (length pos) < 0.001) :
    adiskDensity u pos =
      max 0 (1 - length (pos / (⟨u.uDiskOuter, u.uDiskThickness, u.uDiskOuter⟩ : Vec3))) *
        (1 - |pos.y| / u.uDiskThickness) ^ (2:ℝ) *
        smoothstepf u.uDiskInner (u.uDiskInner * 1.1) (length pos) *
        (1 / length pos ^ (4:ℝ)) * 32000 := by
  unfold adiskDensity
  dsimp only
  rw [if_neg g1, if_neg g2, toSpherical_x]

end PP


/-! Concrete instances used by the counterexamples and witnesses. -/

lemma snoise_c0 : snoise ⟨0, 0, 0⟩ = -174508483434765473681/423360000000000000000 := by
  norm_num [snoise, permute, taylorInvSqrt, mod4, mod3, glslMod, floor3, floor4, floorR,
    step3, step4, stepf, min3, max3, max4s, abs4, dot3, dot4, abs_of_nonneg, abs_of_nonpos]

lemma snoise_c1 : snoise ⟨61/25, 0, 0⟩ =
    -29934029731105704657107399715767/48449707031250000000000000000000 := by
  norm_num [snoise, permute, taylorInvSqrt, mod4, mod3, glslMod, floor3, floor4, floorR,
    step3, step4, stepf, min3, max3, max4s, abs4, dot3, dot4, abs_of_nonneg, abs_of_nonpos]

lemma snoise_c2 : snoise ⟨244/25, 0, 0⟩ =
    2615871779490742665123941557997/5383300781250000000000000000000 := by
  norm_num [snoise, permute, taylorInvSqrt, mod4, mod3, glslMod, floor3, floor4, floorR,
    step3, step4, stepf, min3, max3, max4s, abs4, dot3, dot4, abs_of_nonneg, abs_of_nonpos]

lemma snoise_c3 : snoise ⟨549/25, 0, 0⟩ =
    -937750346089430948220815108179/1196289062500000000000000000000 := by
  norm_num [snoise, permute, taylorInvSqrt, mod4, mod3, glslMod, floor3, floor4, floorR,
    step3, step4, stepf, min3, max3, max4s, abs4, dot3, dot4, abs_of_nonneg, abs_of_nonpos]

lemma snoise_c4 : snoise ⟨976/25, 0, 0⟩ =
    2213875771716635578028367/36507844924926757812500000 := by
  norm_num [snoise, permute, taylorInvSqrt, mod4, mod3, glslMod, floor3, floor4, floorR,
    step3, step4, stepf, min3, max3, max4s, abs4, dot3, dot4, abs_of_nonneg, abs_of_nonpos]

lemma toSpherical_pA : toSpherical ⟨3.05, 0, 0⟩ = ⟨3.05, 0, 0⟩ := by
  unfold toSpherical
  rw [length_axis 3.05 (by norm_num)]
  norm_num [atan2, clampf]

lemma adiskNoise_pA_ne : PP.adiskNoise uA ⟨3.05, 0, 0⟩ ≠ 0 := by
  unfold PP.adiskNoise
  rw [toSpherical_pA]
  rw [show List.range 5 = [0, 1, 2, 3, 4] from rfl]
  norm_num [List.foldl, PP.noiseIter, uA, rpow_two, snoise_c0, snoise_c1, snoise_c2,
    snoise_c3, snoise_c4]

lemma adiskDensity_pA_pos : 0 < PP.adiskDensity uA ⟨3.05, 0, 0⟩ := by
  unfold PP.adiskDensity
  norm_num [uA, length_axis ((61:ℝ)/200) (by norm_num), length_axis ((61:ℝ)/20) (by norm_num),
    PP.toSpherical_x, smoothstepf, clampf, rpow_two, rpow_four, Real.one_rpow]

lemma adiskBaseColor_pA_x_pos : 0 < (PP.adiskBaseColor uA ⟨3.05, 0, 0⟩).x := by
  unfold PP.adiskBaseColor
  dsimp only
  rw [length2_axis 3.05 (by norm_num)]
  have hsm := smoothstepf_mem (uA.uDiskOuter) (uA.uDiskInner) 3.05
  set temp0 := smoothstepf (uA.uDiskOuter) (uA.uDiskInner) 3.05 with ht0
  norm_num [uA, atan2, clampf, mix3, mixf]
  have h0 : 0 ≤ temp0 ^ ((3:ℝ)/4) := Real.rpow_nonneg hsm.1 _
  nlinarith [h0]

/-- One step of the traceColor loop along the positive x axis with zero
conserved angular momentum: the position retreats by 0.1 and the disk color
is accumulated. -/
lemma traceStepA (x : ℝ) (c : Vec3) :
    PP.traceStep uA 0 ⟨⟨x, 0, 0⟩, ⟨-0.1, 0, 0⟩, c, 1⟩ =
      ⟨⟨x - 0.1, 0, 0⟩, ⟨-0.1, 0, 0⟩, (PP.adiskColor uA ⟨x, 0, 0⟩ c 1).1, 1⟩ := by
  unfold PP.traceStep
  rw [PP.accel_h2_zero]
  simp [PP.adiskColor_eq]
  ring

lemma loopStepA (n : ℕ) (x : ℝ) (c : Vec3) (hlo : 2 ≤ x) (hhi : x ≤ 100) :
    PP.traceLoop uA 0 (n + 1) ⟨⟨x, 0, 0⟩, ⟨-0.1, 0, 0⟩, c, 1⟩ =
      PP.traceLoop uA 0 n ⟨⟨x - 0.1, 0, 0⟩, ⟨-0.1, 0, 0⟩,
        (PP.adiskColor uA ⟨x, 0, 0⟩ c 1).1, 1⟩ := by
  have hl : length (⟨x, 0, 0⟩ : Vec3) = x := length_axis x (by linarith)
  have hh : ¬ length (⟨x, 0, 0⟩ : Vec3) < PP.eventHorizon uA := by
    rw [hl]
    norm_num [PP.eventHorizon, uA]
    linarith
  have he : ¬ 100 < length (⟨x, 0, 0⟩ : Vec3) := by
    rw [hl]
    linarith
  rw [PP.traceLoop_cont uA 0 n ⟨⟨x, 0, 0⟩, ⟨-0.1, 0, 0⟩, c, 1⟩ hh he]
  rw [traceStepA]

lemma loopCaptureA (n : ℕ) (x : ℝ) (d c : Vec3) (h0 : 0 ≤ x) (hcap : x < 2) :
    PP.traceLoop uA 0 (n + 1) ⟨⟨x, 0, 0⟩, d, c, 1⟩ = (c, PP.Exit.absorbed) := by
  have hl : length (⟨x, 0, 0⟩ : Vec3) = x := length_axis x h0
  refine PP.traceLoop_absorbed _ _ _ _ ?_
  rw [hl]
  norm_num [PP.eventHorizon, uA]
  linarith

lemma dot3_self_nonneg (v : Vec3) : 0 ≤ dot3 v v := by
  unfold dot3
  nlinarith [mul_self_nonneg v.x, mul_self_nonneg v.y, mul_self_nonneg v.z]

lemma dot3_self_pos (v : Vec3) (h : v ≠ ⟨0, 0, 0⟩) : 0 < dot3 v v := by
  rcases lt_or_eq_of_le (dot3_self_nonneg v) with hlt | heq
  · exact hlt
  · exfalso
    apply h
    have hx : v.x = 0 := by
      unfold dot3 at heq
      nlinarith [mul_self_nonneg v.x, mul_self_nonneg v.y, mul_self_nonneg v.z]
    have hy : v.y = 0 := by
      unfold dot3 at heq
      nlinarith [mul_self_nonneg v.x, mul_self_nonneg v.y, mul_self_nonneg v.z]
    have hz : v.z = 0 := by
      unfold dot3 at heq
      nlinarith [mul_self_nonneg v.x, mul_self_nonneg v.y, mul_self_nonneg v.z]
    ext <;> simp [hx, hy, hz]

lemma length_sq (v : Vec3) : length v * length v = dot3 v v :=
  Real.mul_self_sqrt (dot3_self_nonneg v)

lemma length_pos (v : Vec3) (h : v ≠ ⟨0, 0, 0⟩) : 0 < length v :=
  Real.sqrt_pos.2 (dot3_self_pos v h)

lemma length_normalize (v : Vec3) (h : v ≠ ⟨0, 0, 0⟩) : length (normalize v) = 1 := by
  have hL := length_pos v h
  have hLL := length_sq v
  unfold normalize
  rw [show (v / length v) = (⟨v.x / length v, v.y / length v, v.z / length v⟩ : Vec3)
    from rfl]
  rw [length_eval]
  rw [show v.x / length v * (v.x / length v) + v.y / length v * (v.y / length v) +
      v.z / length v * (v.z / length v) = dot3 v v / (length v * length v) from by
    unfold dot3
    field_simp]
  rw [hLL, div_self (ne_of_gt (dot3_self_pos v h))]
  exact Real.sqrt_one

/-- pow(r2, 2.5) with r2 the squared radius equals the fifth power of the
radius. -/
lemma sq_rpow_two_five (x : ℝ) (hx : 0 ≤ x) : (x * x) ^ (2.5 : ℝ) = x ^ (5:ℕ) := by
  rw [show x * x = x ^ ((2:ℕ):ℝ) from by rw [Real.rpow_natCast]; ring]
  rw [← Real.rpow_natCast x 5, ← Real.rpow_mul hx]
  norm_num

lemma geoAcc_zero_of_small (pos vel : Vec3) (h : length pos < 2.02) :
    Grav.geodesicAcceleration pos vel = ⟨0, 0, 0⟩ := by
  unfold Grav.geodesicAcceleration
  dsimp only
  rw [if_pos (show length pos < Grav.SCHWARZSCHILD_RADIUS * 1.01 from by
    unfold Grav.SCHWARZSCHILD_RADIUS
    linarith)]

lemma rk4Raw_val : (Grav.rk4Raw ⟨0.5, 0, 0⟩ ⟨1, 0, 0⟩ 0.1).2 = ⟨1, 0, 0⟩ := by
  have g1 : Grav.geodesicAcceleration ⟨0.5, 0, 0⟩ ⟨1, 0, 0⟩ = ⟨0, 0, 0⟩ :=
    geoAcc_zero_of_small _ _ (by rw [length_axis 0.5 (by norm_num)]; norm_num)
  have g2 : ∀ v, Grav.geodesicAcceleration ⟨11/20, 0, 0⟩ v = ⟨0, 0, 0⟩ := fun v =>
    geoAcc_zero_of_small _ v (by rw [length_axis (11/20) (by norm_num)]; norm_num)
  have g4 : ∀ v, Grav.geodesicAcceleration ⟨3/5, 0, 0⟩ v = ⟨0, 0, 0⟩ := fun v =>
    geoAcc_zero_of_small _ v (by rw [length_axis (3/5) (by norm_num)]; norm_num)
  unfold Grav.rk4Raw
  dsimp only
  rw [g1]
  norm_num [g2, g4]

set_option maxHeartbeats 1000000 in
/-- Inside the disk ellipsoid, past the inner smoothstep ramp and wherever the
thresholds have not zeroed it, the disk density is strictly decreasing in the
absolute vertical coordinate. -/
lemma adiskDensity_strict_anti (u : PP.Uniforms) (x y1 y2 z : ℝ)
    (hin : 0 < u.uDiskInner) (ht : 0 < u.uDiskThickness)
    (hy : |y1| < |y2|)
    (hrr : u.uDiskInner * 1.1 ≤ length ⟨x, y1, z⟩)
    (hpos : 0 < PP.adiskDensity u ⟨x, y2, z⟩) :
    PP.adiskDensity u ⟨x, y2, z⟩ < PP.adiskDensity u ⟨x, y1, z⟩ := by
  have hyy : y1 * y1 < y2 * y2 := by
    have h := mul_self_lt_mul_self (abs_nonneg y1) hy
    rwa [abs_mul_abs_self, abs_mul_abs_self] at h
  have hdiv1 : (⟨x, y1, z⟩ : Vec3) / (⟨u.uDiskOuter, u.uDiskThickness, u.uDiskOuter⟩ : Vec3) =
      ⟨x / u.uDiskOuter, y1 / u.uDiskThickness, z / u.uDiskOuter⟩ := rfl
  have hdiv2 : (⟨x, y2, z⟩ : Vec3) / (⟨u.uDiskOuter, u.uDiskThickness, u.uDiskOuter⟩ : Vec3) =
      ⟨x / u.uDiskOuter, y2 / u.uDiskThickness, z / u.uDiskOuter⟩ := rfl
  -- scaled ellipsoid radii
  have hdotL : dot3 (⟨x / u.uDiskOuter, y1 / u.uDiskThickness, z / u.uDiskOuter⟩ : Vec3)
        (⟨x / u.uDiskOuter, y1 / u.uDiskThickness, z / u.uDiskOuter⟩ : Vec3) <
      dot3 (⟨x / u.uDiskOuter, y2 / u.uDiskThickness, z / u.uDiskOuter⟩ : Vec3)
        (⟨x / u.uDiskOuter, y2 / u.uDiskThickness, z / u.uDiskOuter⟩ : Vec3) := by
    show x / u.uDiskOuter * (x / u.uDiskOuter) +
        y1 / u.uDiskThickness * (y1 / u.uDiskThickness) +
        z / u.uDiskOuter * (z / u.uDiskOuter) <
      x / u.uDiskOuter * (x / u.uDiskOuter) +
        y2 / u.uDiskThickness * (y2 / u.uDiskThickness) +
        z / u.uDiskOuter * (z / u.uDiskOuter)
    have hmid : y1 / u.uDiskThickness * (y1 / u.uDiskThickness) <
        y2 / u.uDiskThickness * (y2 / u.uDiskThickness) := by
      rw [div_mul_div_comm, div_mul_div_comm]
      exact (div_lt_div_iff_of_pos_right (mul_pos ht ht)).2 hyy
    linarith
  have hL : length (⟨x / u.uDiskOuter, y1 / u.uDiskThickness, z / u.uDiskOuter⟩ : Vec3) <
      length (⟨x / u.uDiskOuter, y2 / u.uDiskThickness, z / u.uDiskOuter⟩ : Vec3) :=
    Real.sqrt_lt_sqrt (dot3_self_nonneg _) hdotL
  -- true radii
  have hdotR : dot3 (⟨x, y1, z⟩ : Vec3) (⟨x, y1, z⟩ : Vec3) <
      dot3 (⟨x, y2, z⟩ : Vec3) (⟨x, y2, z⟩ : Vec3) := by
    show x * x + y1 * y1 + z * z < x * x + y2 * y2 + z * z
    linarith
  have hrho : length (⟨x, y1, z⟩ : Vec3) < length (⟨x, y2, z⟩ : Vec3) :=
    Real.sqrt_lt_sqrt (dot3_self_nonneg _) hdotR
  have hrho1pos : 0 < length (⟨x, y1, z⟩ : Vec3) := lt_of_lt_of_le (by nlinarith) hrr
  -- guards from positivity at y2
  obtain ⟨G1, G2⟩ := PP.adiskDensity_guards u ⟨x, y2, z⟩ hpos
  rw [hdiv2] at G1 G2
  dsimp only at G2
  -- the max at y2 resolves to the positive branch
  have hmax2 : max 0 (1 - length (⟨x / u.uDiskOuter, y2 / u.uDiskThickness,
      z / u.uDiskOuter⟩ : Vec3)) =
      1 - length (⟨x / u.uDiskOuter, y2 / u.uDiskThickness, z / u.uDiskOuter⟩ : Vec3) := by
    rcases le_or_lt (1 - length (⟨x / u.uDiskOuter, y2 / u.uDiskThickness,
        z / u.uDiskOuter⟩ : Vec3)) 0 with hc | hc
    · rw [max_eq_left hc] at G1
      norm_num at G1
    · exact max_eq_right hc.le
  have hd02 : 0.001 ≤ 1 - length (⟨x / u.uDiskOuter, y2 / u.uDiskThickness,
      z / u.uDiskOuter⟩ : Vec3) := by
    rw [hmax2] at G1
    exact G1
  have hmax1 : max 0 (1 - length (⟨x / u.uDiskOuter, y1 / u.uDiskThickness,
      z / u.uDiskOuter⟩ : Vec3)) =
      1 - length (⟨x / u.uDiskOuter, y1 / u.uDiskThickness, z / u.uDiskOuter⟩ : Vec3) :=
    max_eq_right (by linarith)
  -- smoothstep factors are 1 at both radii
  have hssd : (0:ℝ) < u.uDiskInner * 1.1 - u.uDiskInner := by nlinarith
  have hss1 : smoothstepf u.uDiskInner (u.uDiskInner * 1.1) (length (⟨x, y1, z⟩ : Vec3)) = 1 :=
    smoothstepf_eq_one _ _ _ hssd hrr
  have hss2 : smoothstepf u.uDiskInner (u.uDiskInner * 1.1) (length (⟨x, y2, z⟩ : Vec3)) = 1 :=
    smoothstepf_eq_one _ _ _ hssd (by linarith)
  -- the vertical attenuation at y2 is positive
  have habs2 : |y2| / u.uDiskThickness < 1 := by
    have hsq : length (⟨x / u.uDiskOuter, y2 / u.uDiskThickness, z / u.uDiskOuter⟩ : Vec3) *
        length (⟨x / u.uDiskOuter, y2 / u.uDiskThickness, z / u.uDiskOuter⟩ : Vec3) =
        x / u.uDiskOuter * (x / u.uDiskOuter) +
          y2 / u.uDiskThickness * (y2 / u.uDiskThickness) +
          z / u.uDiskOuter * (z / u.uDiskOuter) := length_sq _
    have hL2lt : length (⟨x / u.uDiskOuter, y2 / u.uDiskThickness, z / u.uDiskOuter⟩ : Vec3) < 1 := by
      linarith
    have hL2nn : 0 ≤ length (⟨x / u.uDiskOuter, y2 / u.uDiskThickness, z / u.uDiskOuter⟩ : Vec3) :=
      length_nonneg _
    have hy2sq : y2 / u.uDiskThickness * (y2 / u.uDiskThickness) < 1 := by
      nlinarith [mul_self_nonneg (x / u.uDiskOuter), mul_self_nonneg (z / u.uDiskOuter)]
    have habs : |y2| / u.uDiskThickness * (|y2| / u.uDiskThickness) < 1 := by
      rw [div_mul_div_comm, abs_mul_abs_self, ← div_mul_div_comm]
      exact hy2sq
    nlinarith [abs_nonneg y2, div_nonneg (abs_nonneg y2) ht.le]
  have habs1 : |y1| / u.uDiskThickness < |y2| / u.uDiskThickness :=
    (div_lt_div_iff_of_pos_right ht).2 hy
  have habsnn : (0:ℝ) ≤ |y1| / u.uDiskThickness := div_nonneg (abs_nonneg y1) ht.le
  -- vertical attenuation compare
  have hA : (0:ℝ) < 1 - |y2| / u.uDiskThickness := by linarith
  have hA12 : 1 - |y2| / u.uDiskThickness < 1 - |y1| / u.uDiskThickness := by linarith
  -- pre-threshold densities
  have hrw2 : (1 - |(⟨x, y2, z⟩ : Vec3).y| / u.uDiskThickness) ^ (2:ℝ) =
      (1 - |y2| / u.uDiskThickness) * (1 - |y2| / u.uDiskThickness) := by
    rw [rpow_two]
    ring
  have hrw1 : (1 - |(⟨x, y1, z⟩ : Vec3).y| / u.uDiskThickness) ^ (2:ℝ) =
      (1 - |y1| / u.uDiskThickness) * (1 - |y1| / u.uDiskThickness) := by
    rw [rpow_two]
    ring
  have hD2 : 0.001 ≤ (1 - length (⟨x / u.uDiskOuter, y2 / u.uDiskThickness,
      z / u.uDiskOuter⟩ : Vec3)) *
      ((1 - |y2| / u.uDiskThickness) * (1 - |y2| / u.uDiskThickness)) := by
    rw [hmax2, hrw2, hss2, mul_one] at G2
    linarith [G2]
  -- strict comparison of the pre-threshold densities
  have hDlt : (1 - length (⟨x / u.uDiskOuter, y2 / u.uDiskThickness,
      z / u.uDiskOuter⟩ : Vec3)) *
      ((1 - |y2| / u.uDiskThickness) * (1 - |y2| / u.uDiskThickness)) <
      (1 - length (⟨x / u.uDiskOuter, y1 / u.uDiskThickness, z / u.uDiskOuter⟩ : Vec3)) *
      ((1 - |y1| / u.uDiskThickness) * (1 - |y1| / u.uDiskThickness)) := by
    have hBB : (1 - |y2| / u.uDiskThickness) * (1 - |y2| / u.uDiskThickness) <
        (1 - |y1| / u.uDiskThickness) * (1 - |y1| / u.uDiskThickness) :=
      mul_self_lt_mul_self hA.le hA12
    have ha2pos : (0:ℝ) < 1 - length (⟨x / u.uDiskOuter, y2 / u.uDiskThickness,
        z / u.uDiskOuter⟩ : Vec3) := by linarith
    have ha1pos : (0:ℝ) < 1 - length (⟨x / u.uDiskOuter, y1 / u.uDiskThickness,
        z / u.uDiskOuter⟩ : Vec3) := by linarith
    have hBBpos : (0:ℝ) < (1 - |y2| / u.uDiskThickness) * (1 - |y2| / u.uDiskThickness) :=
      mul_pos hA hA
    calc (1 - length (⟨x / u.uDiskOuter, y2 / u.uDiskThickness, z / u.uDiskOuter⟩ : Vec3)) *
        ((1 - |y2| / u.uDiskThickness) * (1 - |y2| / u.uDiskThickness)) <
        (1 - length (⟨x / u.uDiskOuter, y1 / u.uDiskThickness, z / u.uDiskOuter⟩ : Vec3)) *
        ((1 - |y2| / u.uDiskThickness) * (1 - |y2| / u.uDiskThickness)) :=
          mul_lt_mul_of_pos_right (by linarith) hBBpos
      _ < (1 - length (⟨x / u.uDiskOuter, y1 / u.uDiskThickness, z / u.uDiskOuter⟩ : Vec3)) *
        ((1 - |y1| / u.uDiskThickness) * (1 - |y1| / u.uDiskThickness)) :=
          mul_lt_mul_of_pos_left hBB ha1pos
  -- guards at y1
  have g1' : ¬ max 0 (1 - length ((⟨x, y1, z⟩ : Vec3) /
      (⟨u.uDiskOuter, u.uDiskThickness, u.uDiskOuter⟩ : Vec3))) < 0.001 := by
    rw [hdiv1, hmax1]
    push_neg
    linarith
  have g2' : ¬ max 0 (1 - length ((⟨x, y1, z⟩ : Vec3) /
        (⟨u.uDiskOuter, u.uDiskThickness, u.uDiskOuter⟩ : Vec3))) *
      (1 - |(⟨x, y1, z⟩ : Vec3).y| / u.uDiskThickness) ^ (2:ℝ) *
      smoothstepf u.uDiskInner (u.uDiskInner * 1.1) (length (⟨x, y1, z⟩ : Vec3)) < 0.001 := by
    rw [hdiv1, hmax1, hrw1, hss1, mul_one]
    push_neg
    linarith
  have g1'' : ¬ max 0 (1 - length ((⟨x, y2, z⟩ : Vec3) /
      (⟨u.uDiskOuter, u.uDiskThickness, u.uDiskOuter⟩ : Vec3))) < 0.001 := by
    rw [hdiv2]
    push_neg
    rw [hmax2]
    linarith
  have g2'' : ¬ max 0 (1 - length ((⟨x, y2, z⟩ : Vec3) /
        (⟨u.uDiskOuter, u.uDiskThickness, u.uDiskOuter⟩ : Vec3))) *
      (1 - |(⟨x, y2, z⟩ : Vec3).y| / u.uDiskThickness) ^ (2:ℝ) *
      smoothstepf u.uDiskInner (u.uDiskInner * 1.1) (length (⟨x, y2, z⟩ : Vec3)) < 0.001 := by
    rw [hdiv2, hmax2, hrw2, hss2, mul_one]
    push_neg
    linarith
  rw [PP.adiskDensity_value u ⟨x, y1, z⟩ g1' g2', PP.adiskDensity_value u ⟨x, y2, z⟩ g1'' g2'']
  rw [hdiv1, hdiv2, hmax1, hmax2, hrw1, hrw2, hss1, hss2, mul_one, mul_one]
  -- final comparison with the radial falloff
  rw [rpow_four, rpow_four]
  have hp4 : length (⟨x, y1, z⟩ : Vec3) ^ (4:ℕ) < length (⟨x, y2, z⟩ : Vec3) ^ (4:ℕ) :=
    pow_lt_pow_left₀ hrho hrho1pos.le (by norm_num)
  have hp4pos : (0:ℝ) < length (⟨x, y1, z⟩ : Vec3) ^ (4:ℕ) := pow_pos hrho1pos 4
  have hinv : 1 / length (⟨x, y2, z⟩ : Vec3) ^ (4:ℕ) < 1 / length (⟨x, y1, z⟩ : Vec3) ^ (4:ℕ) := by
    gcongr
  have hinvpos : (0:ℝ) < 1 / length (⟨x, y2, z⟩ : Vec3) ^ (4:ℕ) :=
    div_pos one_pos (pow_pos (lt_trans hrho1pos hrho) 4)
  have hstep : (1 - length (⟨x / u.uDiskOuter, y2 / u.uDiskThickness,
      z / u.uDiskOuter⟩ : Vec3)) *
      ((1 - |y2| / u.uDiskThickness) * (1 - |y2| / u.uDiskThickness)) *
      (1 / length (⟨x, y2, z⟩ : Vec3) ^ (4:ℕ)) <
      (1 - length (⟨x / u.uDiskOuter, y1 / u.uDiskThickness, z / u.uDiskOuter⟩ : Vec3)) *
      ((1 - |y1| / u.uDiskThickness) * (1 - |y1| / u.uDiskThickness)) *
      (1 / length (⟨x, y1, z⟩ : Vec3) ^ (4:ℕ)) := by
    have h1 := mul_lt_mul_of_pos_right hDlt hinvpos
    have h2 := mul_lt_mul_of_pos_left hinv (lt_of_lt_of_le (by norm_num) (le_trans hD2 hDlt.le))
    calc (1 - length (⟨x / u.uDiskOuter, y2 / u.uDiskThickness, z / u.uDiskOuter⟩ : Vec3)) *
        ((1 - |y2| / u.uDiskThickness) * (1 - |y2| / u.uDiskThickness)) *
        (1 / length (⟨x, y2, z⟩ : Vec3) ^ (4:ℕ)) <
        (1 - length (⟨x / u.uDiskOuter, y1 / u.uDiskThickness, z / u.uDiskOuter⟩ : Vec3)) *
        ((1 - |y1| / u.uDiskThickness) * (1 - |y1| / u.uDiskThickness)) *
        (1 / length (⟨x, y2, z⟩ : Vec3) ^ (4:ℕ)) := h1
      _ < _ := h2
  have := mul_lt_mul_of_pos_right hstep (by norm_num : (0:ℝ) < 32000)
  calc (1 - length (⟨x / u.uDiskOuter, y2 / u.uDiskThickness, z / u.uDiskOuter⟩ : Vec3)) *
      ((1 - |y2| / u.uDiskThickness) * (1 - |y2| / u.uDiskThickness)) *
      (1 / length (⟨x, y2, z⟩ : Vec3) ^ (4:ℕ)) * 32000 <
      (1 - length (⟨x / u.uDiskOuter, y1 / u.uDiskThickness, z / u.uDiskOuter⟩ : Vec3)) *
      ((1 - |y1| / u.uDiskThickness) * (1 - |y1| / u.uDiskThickness)) *
      (1 / length (⟨x, y1, z⟩ : Vec3) ^ (4:ℕ)) * 32000 := this
    _ = _ := rfl

lemma adiskDensity_wB_pos : 0 < PP.adiskDensity uA ⟨3, 0.4, 0⟩ := by
  have hdiv : (⟨3, 0.4, 0⟩ : Vec3) /
      (⟨uA.uDiskOuter, uA.uDiskThickness, uA.uDiskOuter⟩ : Vec3) = ⟨0.3, 0.4, 0⟩ := by
    norm_num [uA]
  have hL : length (⟨0.3, 0.4, 0⟩ : Vec3) = 0.5 := by
    rw [length_eval, show (0.3:ℝ) * 0.3 + 0.4 * 0.4 + 0 * 0 = 0.5 * 0.5 from by norm_num]
    exact Real.sqrt_mul_self (by norm_num)
  have hrho : length (⟨3, 0.4, 0⟩ : Vec3) = Real.sqrt (229/25) := by
    rw [length_eval]
    norm_num
  have hr1 : (2.75:ℝ) ≤ Real.sqrt (229/25) := by
    rw [show (2.75:ℝ) = Real.sqrt (2.75^2) from (Real.sqrt_sq (by norm_num)).symm]
    exact Real.sqrt_le_sqrt (by norm_num)
  have hss : smoothstepf uA.uDiskInner (uA.uDiskInner * 1.1)
      (length (⟨3, 0.4, 0⟩ : Vec3)) = 1 := by
    refine smoothstepf_eq_one _ _ _ (by norm_num [uA]) ?_
    rw [hrho, show uA.uDiskInner * 1.1 = 2.75 from by norm_num [uA]]
    exact hr1
  have g1 : ¬ max 0 (1 - length ((⟨3, 0.4, 0⟩ : Vec3) /
      (⟨uA.uDiskOuter, uA.uDiskThickness, uA.uDiskOuter⟩ : Vec3))) < 0.001 := by
    rw [hdiv, hL]
    norm_num
  have g2 : ¬ max 0 (1 - length ((⟨3, 0.4, 0⟩ : Vec3) /
        (⟨uA.uDiskOuter, uA.uDiskThickness, uA.uDiskOuter⟩ : Vec3))) *
      (1 - |(⟨3, 0.4, 0⟩ : Vec3).y| / uA.uDiskThickness) ^ (2:ℝ) *
      smoothstepf uA.uDiskInner (uA.uDiskInner * 1.1)
        (length (⟨3, 0.4, 0⟩ : Vec3)) < 0.001 := by
    rw [hdiv, hL, hss, mul_one,
      show |(⟨3, 0.4, 0⟩ : Vec3).y| / uA.uDiskThickness = 0.4 from by norm_num [uA],
      rpow_two]
    norm_num
  rw [PP.adiskDensity_value uA ⟨3, 0.4, 0⟩ g1 g2]
  rw [hdiv, hL, hss, mul_one,
    show |(⟨3, 0.4, 0⟩ : Vec3).y| / uA.uDiskThickness = 0.4 from by norm_num [uA],
    rpow_two, rpow_four, hrho]
  have h4 : (0:ℝ) < 1 / Real.sqrt (229/25) ^ (4:ℕ) :=
    div_pos one_pos (pow_pos (by linarith) 4)
  positivity

/-! Claim theorems. -/

/-- Claim C1, counterexample: the ray started at (3.05, 0, 0) with direction
(-1, 0, 0) under the uA uniforms is captured by the event horizon, yet
traceColor returns a color different from black: the disk color accumulated
before capture is returned unchanged, not discarded. -/
theorem C1_capture_cex :
    (PP.traceColor uA ⟨3.05, 0, 0⟩ ⟨-1, 0, 0⟩).2 = PP.Exit.absorbed ∧
    (PP.traceColor uA ⟨3.05, 0, 0⟩ ⟨-1, 0, 0⟩).1 ≠ ⟨0, 0, 0⟩ := by
  have hinit : PP.traceColor uA ⟨3.05, 0, 0⟩ ⟨-1, 0, 0⟩ =
      PP.traceLoop uA 0 300 ⟨⟨3.05, 0, 0⟩, ⟨-0.1, 0, 0⟩, ⟨0, 0, 0⟩, 1⟩ := by
    unfold PP.traceColor
    norm_num [PP.STEP_SIZE, PP.MAX_STEPS, cross, dot3]
  rw [hinit]
  rw [show (300:ℕ) = 299 + 1 from rfl,
    loopStepA 299 (3.05) ⟨0, 0, 0⟩ (by norm_num) (by norm_num)]
  rw [show (299:ℕ) = 298 + 1 from rfl,
    loopStepA 298 (3.05 - 0.1) (PP.adiskColor uA ⟨3.05, 0, 0⟩ ⟨0, 0, 0⟩ 1).1 (by norm_num) (by norm_num)]
  rw [show (298:ℕ) = 297 + 1 from rfl,
    loopStepA 297 (3.05 - 0.1 - 0.1) (PP.adiskColor uA ⟨3.05 - 0.1, 0, 0⟩ (PP.adiskColor uA ⟨3.05, 0, 0⟩ ⟨0, 0, 0⟩ 1).1 1).1 (by norm_num) (by norm_num)]
  rw [show (297:ℕ) = 296 + 1 from rfl,
    loopStepA 296 (3.05 - 0.1 - 0.1 - 0.1) (PP.adiskColor uA ⟨3.05 - 0.1 - 0.1, 0, 0⟩ (PP.adiskColor uA ⟨3.05 - 0.1, 0, 0⟩ (PP.adiskColor uA ⟨3.05, 0, 0⟩ ⟨0, 0, 0⟩ 1).1 1).1 1).1 (by norm_num) (by norm_num)]
  rw [show (296:ℕ) = 295 + 1 from rfl,
    loopStepA 295 (3.05 - 0.1 - 0.1 - 0.1 - 0.1) (PP.adiskColor uA ⟨3.05 - 0.1 - 0.1 - 0.1, 0, 0⟩ (PP.adiskColor uA ⟨3.05 - 0.1 - 0.1, 0, 0⟩ (PP.adiskColor uA ⟨3.05 - 0.1, 0, 0⟩ (PP.adiskColor uA ⟨3.05, 0, 0⟩ ⟨0, 0, 0⟩ 1).1 1).1 1).1 1).1 (by norm_num) (by norm_num)]
  rw [show (295:ℕ) = 294 + 1 from rfl,
    loopStepA 294 (3.05 - 0.1 - 0.1 - 0.1 - 0.1 - 0.1) (PP.adiskColor uA ⟨3.05 - 0.1 - 0.1 - 0.1 - 0.1, 0, 0⟩ (PP.adiskColor uA ⟨3.05 - 0.1 - 0.1 - 0.1, 0, 0⟩ (PP.adiskColor uA ⟨3.05 - 0.1 - 0.1, 0, 0⟩ (PP.adiskColor uA ⟨3.05 - 0.1, 0, 0⟩ (PP.adiskColor uA ⟨3.05, 0, 0⟩ ⟨0, 0, 0⟩ 1).1 1).1 1).1 1).1 1).1 (by norm_num) (by norm_num)]
  rw [show (294:ℕ) = 293 + 1 from rfl,
    loopStepA 293 (3.05 - 0.1 - 0.1 - 0.1 - 0.1 - 0.1 - 0.1) (PP.adiskColor uA ⟨3.05 - 0.1 - 0.1 - 0.1 - 0.1 - 0.1, 0, 0⟩ (PP.adiskColor uA ⟨3.05 - 0.1 - 0.1 - 0.1 - 0.1, 0, 0⟩ (PP.adiskColor uA ⟨3.05 - 0.1 - 0.1 - 0.1, 0, 0⟩ (PP.adiskColor uA ⟨3.05 - 0.1 - 0.1, 0, 0⟩ (PP.adiskColor uA ⟨3.05 - 0.1, 0, 0⟩ (PP.adiskColor uA ⟨3.05, 0, 0⟩ ⟨0, 0, 0⟩ 1).1 1).1 1).1 1).1 1).1 1).1 (by norm_num) (by norm_num)]
  rw [show (293:ℕ) = 292 + 1 from rfl,
    loopStepA 292 (3.05 - 0.1 - 0.1 - 0.1 - 0.1 - 0.1 - 0.1 - 0.1) (PP.adiskColor uA ⟨3.05 - 0.1 - 0.1 - 0.1 - 0.1 - 0.1 - 0.1, 0, 0⟩ (PP.adiskColor uA ⟨3.05 - 0.1 - 0.1 - 0.1 - 0.1 - 0.1, 0, 0⟩ (PP.adiskColor uA ⟨3.05 - 0.1 - 0.1 - 0.1 - 0.1, 0, 0⟩ (PP.adiskColor uA ⟨3.05 - 0.1 - 0.1 - 0.1, 0, 0⟩ (PP.adiskColor uA ⟨3.05 - 0.1 - 0.1, 0, 0⟩ (PP.adiskColor uA ⟨3.05 - 0.1, 0, 0⟩ (PP.adiskColor uA ⟨3.05, 0, 0⟩ ⟨0, 0, 0⟩ 1).1 1).1 1).1 1).1 1).1 1).1 1).1 (by norm_num) (by norm_num)]
  rw [show (292:ℕ) = 291 + 1 from rfl,
    loopStepA 291 (3.05 - 0.1 - 0.1 - 0.1 - 0.1 - 0.1 - 0.1 - 0.1 - 0.1) (PP.adiskColor uA ⟨3.05 - 0.1 - 0.1 - 0.1 - 0.1 - 0.1 - 0.1 - 0.1, 0, 0⟩ (PP.adiskColor uA ⟨3.05 - 0.1 - 0.1 - 0.1 - 0.1 - 0.1 - 0.1, 0, 0⟩ (PP.adiskColor uA ⟨3.05 - 0.1 - 0.1 - 0.1 - 0.1 - 0.1, 0, 0⟩ (PP.adiskColor uA ⟨3.05 - 0.1 - 0.1 - 0.1 - 0.1, 0, 0⟩ (PP.adiskColor uA ⟨3.05 - 0.1 - 0.1 - 0.1, 0, 0⟩ (PP.adiskColor uA ⟨3.05 - 0.1 - 0.1, 0, 0⟩ (PP.adiskColor uA ⟨3.05 - 0.1, 0, 0⟩ (PP.adiskColor uA ⟨3.05, 0, 0⟩ ⟨0, 0, 0⟩ 1).1 1).1 1).1 1).1 1).1 1).1 1).1 1).1 (by norm_num) (by norm_num)]
  rw [show (291:ℕ) = 290 + 1 from rfl,
    loopStepA 290 (3.05 - 0.1 - 0.1 - 0.1 - 0.1 - 0.1 - 0.1 - 0.1 - 0.1 - 0.1) (PP.adiskColor uA ⟨3.05 - 0.1 - 0.1 - 0.1 - 0.1 - 0.1 - 0.1 - 0.1 - 0.1, 0, 0⟩ (PP.adiskColor uA ⟨3.05 - 0.1 - 0.1 - 0.1 - 0.1 - 0.1 - 0.1 - 0.1, 0, 0⟩ (PP.adiskColor uA ⟨3.05 - 0.1 - 0.1 - 0.1 - 0.1 - 0.1 - 0.1, 0, 0⟩ (PP.adiskColor uA ⟨3.05 - 0.1 - 0.1 - 0.1 - 0.1 - 0.1, 0, 0⟩ (PP.adiskColor uA ⟨3.05 - 0.1 - 0.1 - 0.1 - 0.1, 0, 0⟩ (PP.adiskColor uA ⟨3.05 - 0.1 - 0.1 - 0.1, 0, 0⟩ (PP.adiskColor uA ⟨3.05 - 0.1 - 0.1, 0, 0⟩ (PP.adiskColor uA ⟨3.05 - 0.1, 0, 0⟩ (PP.adiskColor uA ⟨3.05, 0, 0⟩ ⟨0, 0, 0⟩ 1).1 1).1 1).1 1).1 1).1 1).1 1).1 1).1 1).1 (by norm_num) (by norm_num)]
  rw [show (290:ℕ) = 289 + 1 from rfl,
    loopStepA 289 (3.05 - 0.1 - 0.1 - 0.1 - 0.1 - 0.1 - 0.1 - 0.1 - 0.1 - 0.1 - 0.1) (PP.adiskColor uA ⟨3.05 - 0.1 - 0.1 - 0.1 - 0.1 - 0.1 - 0.1 - 0.1 - 0.1 - 0.1, 0, 0⟩ (PP.adiskColor uA ⟨3.05 - 0.1 - 0.1 - 0.1 - 0.1 - 0.1 - 0.1 - 0.1 - 0.1, 0, 0⟩ (PP.adiskColor uA ⟨3.05 - 0.1 - 0.1 - 0.1 - 0.1 - 0.1 - 0.1 - 0.1, 0, 0⟩ (PP.adiskColor uA ⟨3.05 - 0.1 - 0.1 - 0.1 - 0.1 - 0.1 - 0.1, 0, 0⟩ (PP.adiskColor uA ⟨3.05 - 0.1 - 0.1 - 0.1 - 0.1 - 0.1, 0, 0⟩ (PP.adiskColor uA ⟨3.05 - 0.1 - 0.1 - 0.1 - 0.1, 0, 0⟩ (PP.adiskColor uA ⟨3.05 - 0.1 - 0.1 - 0.1, 0, 0⟩ (PP.adiskColor uA ⟨3.05 - 0.1 - 0.1, 0, 0⟩ (PP.adiskColor uA ⟨3.05 - 0.1, 0, 0⟩ (PP.adiskColor uA ⟨3.05, 0, 0⟩ ⟨0, 0, 0⟩ 1).1 1).1 1).1 1).1 1).1 1).1 1).1 1).1 1).1 1).1 (by norm_num) (by norm_num)]
  rw [show (289:ℕ) = 288 + 1 from rfl,
    loopCaptureA 288 (3.05 - 0.1 - 0.1 - 0.1 - 0.1 - 0.1 - 0.1 - 0.1 - 0.1 - 0.1 - 0.1 - 0.1) ⟨-0.1, 0, 0⟩ (PP.adiskColor uA ⟨3.05 - 0.1 - 0.1 - 0.1 - 0.1 - 0.1 - 0.1 - 0.1 - 0.1 - 0.1 - 0.1, 0, 0⟩ (PP.adiskColor uA ⟨3.05 - 0.1 - 0.1 - 0.1 - 0.1 - 0.1 - 0.1 - 0.1 - 0.1 - 0.1, 0, 0⟩ (PP.adiskColor uA ⟨3.05 - 0.1 - 0.1 - 0.1 - 0.1 - 0.1 - 0.1 - 0.1 - 0.1, 0, 0⟩ (PP.adiskColor uA ⟨3.05 - 0.1 - 0.1 - 0.1 - 0.1 - 0.1 - 0.1 - 0.1, 0, 0⟩ (PP.adiskColor uA ⟨3.05 - 0.1 - 0.1 - 0.1 - 0.1 - 0.1 - 0.1, 0, 0⟩ (PP.adiskColor uA ⟨3.05 - 0.1 - 0.1 - 0.1 - 0.1 - 0.1, 0, 0⟩ (PP.adiskColor uA ⟨3.05 - 0.1 - 0.1 - 0.1 - 0.1, 0, 0⟩ (PP.adiskColor uA ⟨3.05 - 0.1 - 0.1 - 0.1, 0, 0⟩ (PP.adiskColor uA ⟨3.05 - 0.1 - 0.1, 0, 0⟩ (PP.adiskColor uA ⟨3.05 - 0.1, 0, 0⟩ (PP.adiskColor uA ⟨3.05, 0, 0⟩ ⟨0, 0, 0⟩ 1).1 1).1 1).1 1).1 1).1 1).1 1).1 1).1 1).1 1).1 1).1 (by norm_num) (by norm_num)]
  refine ⟨rfl, ?_⟩
  have hx1 : 0 < ((PP.adiskColor uA ⟨3.05, 0, 0⟩ ⟨0, 0, 0⟩ 1).1).x := by
    rw [PP.adiskColor_eq]
    simp only [Vec3_add_def, smul_Vec3_def, Vec3_smul_def]
    have := mul_pos (mul_pos (mul_pos (mul_pos adiskDensity_pA_pos (by norm_num : (0:ℝ) < 0.8)) adiskBaseColor_pA_x_pos) (by norm_num : (0:ℝ) < 1)) (abs_pos.2 adiskNoise_pA_ne)
    linarith
  have hm1 : ((PP.adiskColor uA ⟨3.05, 0, 0⟩ ⟨0, 0, 0⟩ 1).1) ≤ ((PP.adiskColor uA ⟨3.05 - 0.1, 0, 0⟩ (PP.adiskColor uA ⟨3.05, 0, 0⟩ ⟨0, 0, 0⟩ 1).1 1).1) :=
    PP.adiskColor_mono uA ⟨3.05 - 0.1, 0, 0⟩ (PP.adiskColor uA ⟨3.05, 0, 0⟩ ⟨0, 0, 0⟩ 1).1 1 (by norm_num)
  have hm2 : ((PP.adiskColor uA ⟨3.05 - 0.1, 0, 0⟩ (PP.adiskColor uA ⟨3.05, 0, 0⟩ ⟨0, 0, 0⟩ 1).1 1).1) ≤ ((PP.adiskColor uA ⟨3.05 - 0.1 - 0.1, 0, 0⟩ (PP.adiskColor uA ⟨3.05 - 0.1, 0, 0⟩ (PP.adiskColor uA ⟨3.05, 0, 0⟩ ⟨0, 0, 0⟩ 1).1 1).1 1).1) :=
    PP.adiskColor_mono uA ⟨3.05 - 0.1 - 0.1, 0, 0⟩ (PP.adiskColor uA ⟨3.05 - 0.1, 0, 0⟩ (PP.adiskColor uA ⟨3.05, 0, 0⟩ ⟨0, 0, 0⟩ 1).1 1).1 1 (by norm_num)
  have hm3 : ((PP.adiskColor uA ⟨3.05 - 0.1 - 0.1, 0, 0⟩ (PP.adiskColor uA ⟨3.05 - 0.1, 0, 0⟩ (PP.adiskColor uA ⟨3.05, 0, 0⟩ ⟨0, 0, 0⟩ 1).1 1).1 1).1) ≤ ((PP.adiskColor uA ⟨3.05 - 0.1 - 0.1 - 0.1, 0, 0⟩ (PP.adiskColor uA ⟨3.05 - 0.1 - 0.1, 0, 0⟩ (PP.adiskColor uA ⟨3.05 - 0.1, 0, 0⟩ (PP.adiskColor uA ⟨3.05, 0, 0⟩ ⟨0, 0, 0⟩ 1).1 1).1 1).1 1).1) :=
    PP.adiskColor_mono uA ⟨3.05 - 0.1 - 0.1 - 0.1, 0, 0⟩ (PP.adiskColor uA ⟨3.05 - 0.1 - 0.1, 0, 0⟩ (PP.adiskColor uA ⟨3.05 - 0.1, 0, 0⟩ (PP.adiskColor uA ⟨3.05, 0, 0⟩ ⟨0, 0, 0⟩ 1).1 1).1 1).1 1 (by norm_num)
  have hm4 : ((PP.adiskColor uA ⟨3.05 - 0.1 - 0.1 - 0.1, 0, 0⟩ (PP.adiskColor uA ⟨3.05 - 0.1 - 0.1, 0, 0⟩ (PP.adiskColor uA ⟨3.05 - 0.1, 0, 0⟩ (PP.adiskColor uA ⟨3.05, 0, 0⟩ ⟨0, 0, 0⟩ 1).1 1).1 1).1 1).1) ≤ ((PP.adiskColor uA ⟨3.05 - 0.1 - 0.1 - 0.1 - 0.1, 0, 0⟩ (PP.adiskColor uA ⟨3.05 - 0.1 - 0.1 - 0.1, 0, 0⟩ (PP.adiskColor uA ⟨3.05 - 0.1 - 0.1, 0, 0⟩ (PP.adiskColor uA ⟨3.05 - 0.1, 0, 0⟩ (PP.adiskColor uA ⟨3.05, 0, 0⟩ ⟨0, 0, 0⟩ 1).1 1).1 1).1 1).1 1).1) :=
    PP.adiskColor_mono uA ⟨3.05 - 0.1 - 0.1 - 0.1 - 0.1, 0, 0⟩ (PP.adiskColor uA ⟨3.05 - 0.1 - 0.1 - 0.1, 0, 0⟩ (PP.adiskColor uA ⟨3.05 - 0.1 - 0.1, 0, 0⟩ (PP.adiskColor uA ⟨3.05 - 0.1, 0, 0⟩ (PP.adiskColor uA ⟨3.05, 0, 0⟩ ⟨0, 0, 0⟩ 1).1 1).1 1).1 1).1 1 (by norm_num)
  have hm5 : ((PP.adiskColor uA ⟨3.05 - 0.1 - 0.1 - 0.1 - 0.1, 0, 0⟩ (PP.adiskColor uA ⟨3.05 - 0.1 - 0.1 - 0.1, 0, 0⟩ (PP.adiskColor uA ⟨3.05 - 0.1 - 0.1, 0, 0⟩ (PP.adiskColor uA ⟨3.05 - 0.1, 0, 0⟩ (PP.adiskColor uA ⟨3.05, 0, 0⟩ ⟨0, 0, 0⟩ 1).1 1).1 1).1 1).1 1).1) ≤ ((PP.adiskColor uA ⟨3.05 - 0.1 - 0.1 - 0.1 - 0.1 - 0.1, 0, 0⟩ (PP.adiskColor uA ⟨3.05 - 0.1 - 0.1 - 0.1 - 0.1, 0, 0⟩ (PP.adiskColor uA ⟨3.05 - 0.1 - 0.1 - 0.1, 0, 0⟩ (PP.adiskColor uA ⟨3.05 - 0.1 - 0.1, 0, 0⟩ (PP.adiskColor uA ⟨3.05 - 0.1, 0, 0⟩ (PP.adiskColor uA ⟨3.05, 0, 0⟩ ⟨0, 0, 0⟩ 1).1 1).1 1).1 1).1 1).1 1).1) :=
    PP.adiskColor_mono uA ⟨3.05 - 0.1 - 0.1 - 0.1 - 0.1 - 0.1, 0, 0⟩ (PP.adiskColor uA ⟨3.05 - 0.1 - 0.1 - 0.1 - 0.1, 0, 0⟩ (PP.adiskColor uA ⟨3.05 - 0.1 - 0.1 - 0.1, 0, 0⟩ (PP.adiskColor uA ⟨3.05 - 0.1 - 0.1, 0, 0⟩ (PP.adiskColor uA ⟨3.05 - 0.1, 0, 0⟩ (PP.adiskColor uA ⟨3.05, 0, 0⟩ ⟨0, 0, 0⟩ 1).1 1).1 1).1 1).1 1).1 1 (by norm_num)
  have hm6 : ((PP.adiskColor uA ⟨3.05 - 0.1 - 0.1 - 0.1 - 0.1 - 0.1, 0, 0⟩ (PP.adiskColor uA ⟨3.05 - 0.1 - 0.1 - 0.1 - 0.1, 0, 0⟩ (PP.adiskColor uA ⟨3.05 - 0.1 - 0.1 - 0.1, 0, 0⟩ (PP.adiskColor uA ⟨3.05 - 0.1 - 0.1, 0, 0⟩ (PP.adiskColor uA ⟨3.05 - 0.1, 0, 0⟩ (PP.adiskColor uA ⟨3.05, 0, 0⟩ ⟨0, 0, 0⟩ 1).1 1).1 1).1 1).1 1).1 1).1) ≤ ((PP.adiskColor uA ⟨3.05 - 0.1 - 0.1 - 0.1 - 0.1 - 0.1 - 0.1, 0, 0⟩ (PP.adiskColor uA ⟨3.05 - 0.1 - 0.1 - 0.1 - 0.1 - 0.1, 0, 0⟩ (PP.adiskColor uA ⟨3.05 - 0.1 - 0.1 - 0.1 - 0.1, 0, 0⟩ (PP.adiskColor uA ⟨3.05 - 0.1 - 0.1 - 0.1, 0, 0⟩ (PP.adiskColor uA ⟨3.05 - 0.1 - 0.1, 0, 0⟩ (PP.adiskColor uA ⟨3.05 - 0.1, 0, 0⟩ (PP.adiskColor uA ⟨3.05, 0, 0⟩ ⟨0, 0, 0⟩ 1).1 1).1 1).1 1).1 1).1 1).1 1).1) :=
    PP.adiskColor_mono uA ⟨3.05 - 0.1 - 0.1 - 0.1 - 0.1 - 0.1 - 0.1, 0, 0⟩ (PP.adiskColor uA ⟨3.05 - 0.1 - 0.1 - 0.1 - 0.1 - 0.1, 0, 0⟩ (PP.adiskColor uA ⟨3.05 - 0.1 - 0.1 - 0.1 - 0.1, 0, 0⟩ (PP.adiskColor uA ⟨3.05 - 0.1 - 0.1 - 0.1, 0, 0⟩ (PP.adiskColor uA ⟨3.05 - 0.1 - 0.1, 0, 0⟩ (PP.adiskColor uA ⟨3.05 - 0.1, 0, 0⟩ (PP.adiskColor uA ⟨3.05, 0, 0⟩ ⟨0, 0, 0⟩ 1).1 1).1 1).1 1).1 1).1 1).1 1 (by norm_num)
  have hm7 : ((PP.adiskColor uA ⟨3.05 - 0.1 - 0.1 - 0.1 - 0.1 - 0.1 - 0.1, 0, 0⟩ (PP.adiskColor uA ⟨3.05 - 0.1 - 0.1 - 0.1 - 0.1 - 0.1, 0, 0⟩ (PP.adiskColor uA ⟨3.05 - 0.1 - 0.1 - 0.1 - 0.1, 0, 0⟩ (PP.adiskColor uA ⟨3.05 - 0.1 - 0.1 - 0.1, 0, 0⟩ (PP.adiskColor uA ⟨3.05 - 0.1 - 0.1, 0, 0⟩ (PP.adiskColor uA ⟨3.05 - 0.1, 0, 0⟩ (PP.adiskColor uA ⟨3.05, 0, 0⟩ ⟨0, 0, 0⟩ 1).1 1).1 1).1 1).1 1).1 1).1 1).1) ≤ ((PP.adiskColor uA ⟨3.05 - 0.1 - 0.1 - 0.1 - 0.1 - 0.1 - 0.1 - 0.1, 0, 0⟩ (PP.adiskColor uA ⟨3.05 - 0.1 - 0.1 - 0.1 - 0.1 - 0.1 - 0.1, 0, 0⟩ (PP.adiskColor uA ⟨3.05 - 0.1 - 0.1 - 0.1 - 0.1 - 0.1, 0, 0⟩ (PP.adiskColor uA ⟨3.05 - 0.1 - 0.1 - 0.1 - 0.1, 0, 0⟩ (PP.adiskColor uA ⟨3.05 - 0.1 - 0.1 - 0.1, 0, 0⟩ (PP.adiskColor uA ⟨3.05 - 0.1 - 0.1, 0, 0⟩ (PP.adiskColor uA ⟨3.05 - 0.1, 0, 0⟩ (PP.adiskColor uA ⟨3.05, 0, 0⟩ ⟨0, 0, 0⟩ 1).1 1).1 1).1 1).1 1).1 1).1 1).1 1).1) :=
    PP.adiskColor_mono uA ⟨3.05 - 0.1 - 0.1 - 0.1 - 0.1 - 0.1 - 0.1 - 0.1, 0, 0⟩ (PP.adiskColor uA ⟨3.05 - 0.1 - 0.1 - 0.1 - 0.1 - 0.1 - 0.1, 0, 0⟩ (PP.adiskColor uA ⟨3.05 - 0.1 - 0.1 - 0.1 - 0.1 - 0.1, 0, 0⟩ (PP.adiskColor uA ⟨3.05 - 0.1 - 0.1 - 0.1 - 0.1, 0, 0⟩ (PP.adiskColor uA ⟨3.05 - 0.1 - 0.1 - 0.1, 0, 0⟩ (PP.adiskColor uA ⟨3.05 - 0.1 - 0.1, 0, 0⟩ (PP.adiskColor uA ⟨3.05 - 0.1, 0, 0⟩ (PP.adiskColor uA ⟨3.05, 0, 0⟩ ⟨0, 0, 0⟩ 1).1 1).1 1).1 1).1 1).1 1).1 1).1 1 (by norm_num)
  have hm8 : ((PP.adiskColor uA ⟨3.05 - 0.1 - 0.1 - 0.1 - 0.1 - 0.1 - 0.1 - 0.1, 0, 0⟩ (PP.adiskColor uA ⟨3.05 - 0.1 - 0.1 - 0.1 - 0.1 - 0.1 - 0.1, 0, 0⟩ (PP.adiskColor uA ⟨3.05 - 0.1 - 0.1 - 0.1 - 0.1 - 0.1, 0, 0⟩ (PP.adiskColor uA ⟨3.05 - 0.1 - 0.1 - 0.1 - 0.1, 0, 0⟩ (PP.adiskColor uA ⟨3.05 - 0.1 - 0.1 - 0.1, 0, 0⟩ (PP.adiskColor uA ⟨3.05 - 0.1 - 0.1, 0, 0⟩ (PP.adiskColor uA ⟨3.05 - 0.1, 0, 0⟩ (PP.adiskColor uA ⟨3.05, 0, 0⟩ ⟨0, 0, 0⟩ 1).1 1).1 1).1 1).1 1).1 1).1 1).1 1).1) ≤ ((PP.adiskColor uA ⟨3.05 - 0.1 - 0.1 - 0.1 - 0.1 - 0.1 - 0.1 - 0.1 - 0.1, 0, 0⟩ (PP.adiskColor uA ⟨3.05 - 0.1 - 0.1 - 0.1 - 0.1 - 0.1 - 0.1 - 0.1, 0, 0⟩ (PP.adiskColor uA ⟨3.05 - 0.1 - 0.1 - 0.1 - 0.1 - 0.1 - 0.1, 0, 0⟩ (PP.adiskColor uA ⟨3.05 - 0.1 - 0.1 - 0.1 - 0.1 - 0.1, 0, 0⟩ (PP.adiskColor uA ⟨3.05 - 0.1 - 0.1 - 0.1 - 0.1, 0, 0⟩ (PP.adiskColor uA ⟨3.05 - 0.1 - 0.1 - 0.1, 0, 0⟩ (PP.adiskColor uA ⟨3.05 - 0.1 - 0.1, 0, 0⟩ (PP.adiskColor uA ⟨3.05 - 0.1, 0, 0⟩ (PP.adiskColor uA ⟨3.05, 0, 0⟩ ⟨0, 0, 0⟩ 1).1 1).1 1).1 1).1 1).1 1).1 1).1 1).1 1).1) :=
    PP.adiskColor_mono uA ⟨3.05 - 0.1 - 0.1 - 0.1 - 0.1 - 0.1 - 0.1 - 0.1 - 0.1, 0, 0⟩ (PP.adiskColor uA ⟨3.05 - 0.1 - 0.1 - 0.1 - 0.1 - 0.1 - 0.1 - 0.1, 0, 0⟩ (PP.adiskColor uA ⟨3.05 - 0.1 - 0.1 - 0.1 - 0.1 - 0.1 - 0.1, 0, 0⟩ (PP.adiskColor uA ⟨3.05 - 0.1 - 0.1 - 0.1 - 0.1 - 0.1, 0, 0⟩ (PP.adiskColor uA ⟨3.05 - 0.1 - 0.1 - 0.1 - 0.1, 0, 0⟩ (PP.adiskColor uA ⟨3.05 - 0.1 - 0.1 - 0.1, 0, 0⟩ (PP.adiskColor uA ⟨3.05 - 0.1 - 0.1, 0, 0⟩ (PP.adiskColor uA ⟨3.05 - 0.1, 0, 0⟩ (PP.adiskColor uA ⟨3.05, 0, 0⟩ ⟨0, 0, 0⟩ 1).1 1).1 1).1 1).1 1).1 1).1 1).1 1).1 1 (by norm_num)
  have hm9 : ((PP.adiskColor uA ⟨3.05 - 0.1 - 0.1 - 0.1 - 0.1 - 0.1 - 0.1 - 0.1 - 0.1, 0, 0⟩ (PP.adiskColor uA ⟨3.05 - 0.1 - 0.1 - 0.1 - 0.1 - 0.1 - 0.1 - 0.1, 0, 0⟩ (PP.adiskColor uA ⟨3.05 - 0.1 - 0.1 - 0.1 - 0.1 - 0.1 - 0.1, 0, 0⟩ (PP.adiskColor uA ⟨3.05 - 0.1 - 0.1 - 0.1 - 0.1 - 0.1, 0, 0⟩ (PP.adiskColor uA ⟨3.05 - 0.1 - 0.1 - 0.1 - 0.1, 0, 0⟩ (PP.adiskColor uA ⟨3.05 - 0.1 - 0.1 - 0.1, 0, 0⟩ (PP.adiskColor uA ⟨3.05 - 0.1 - 0.1, 0, 0⟩ (PP.adiskColor uA ⟨3.05 - 0.1, 0, 0⟩ (PP.adiskColor uA ⟨3.05, 0, 0⟩ ⟨0, 0, 0⟩ 1).1 1).1 1).1 1).1 1).1 1).1 1).1 1).1 1).1) ≤ ((PP.adiskColor uA ⟨3.05 - 0.1 - 0.1 - 0.1 - 0.1 - 0.1 - 0.1 - 0.1 - 0.1 - 0.1, 0, 0⟩ (PP.adiskColor uA ⟨3.05 - 0.1 - 0.1 - 0.1 - 0.1 - 0.1 - 0.1 - 0.1 - 0.1, 0, 0⟩ (PP.adiskColor uA ⟨3.05 - 0.1 - 0.1 - 0.1 - 0.1 - 0.1 - 0.1 - 0.1, 0, 0⟩ (PP.adiskColor uA ⟨3.05 - 0.1 - 0.1 - 0.1 - 0.1 - 0.1 - 0.1, 0, 0⟩ (PP.adiskColor uA ⟨3.05 - 0.1 - 0.1 - 0.1 - 0.1 - 0.1, 0, 0⟩ (PP.adiskColor uA ⟨3.05 - 0.1 - 0.1 - 0.1 - 0.1, 0, 0⟩ (PP.adiskColor uA ⟨3.05 - 0.1 - 0.1 - 0.1, 0, 0⟩ (PP.adiskColor uA ⟨3.05 - 0.1 - 0.1, 0, 0⟩ (PP.adiskColor uA ⟨3.05 - 0.1, 0, 0⟩ (PP.adiskColor uA ⟨3.05, 0, 0⟩ ⟨0, 0, 0⟩ 1).1 1).1 1).1 1).1 1).1 1).1 1).1 1).1 1).1 1).1) :=
    PP.adiskColor_mono uA ⟨3.05 - 0.1 - 0.1 - 0.1 - 0.1 - 0.1 - 0.1 - 0.1 - 0.1 - 0.1, 0, 0⟩ (PP.adiskColor uA ⟨3.05 - 0.1 - 0.1 - 0.1 - 0.1 - 0.1 - 0.1 - 0.1 - 0.1, 0, 0⟩ (PP.adiskColor uA ⟨3.05 - 0.1 - 0.1 - 0.1 - 0.1 - 0.1 - 0.1 - 0.1, 0, 0⟩ (PP.adiskColor uA ⟨3.05 - 0.1 - 0.1 - 0.1 - 0.1 - 0.1 - 0.1, 0, 0⟩ (PP.adiskColor uA ⟨3.05 - 0.1 - 0.1 - 0.1 - 0.1 - 0.1, 0, 0⟩ (PP.adiskColor uA ⟨3.05 - 0.1 - 0.1 - 0.1 - 0.1, 0, 0⟩ (PP.adiskColor uA ⟨3.05 - 0.1 - 0.1 - 0.1, 0, 0⟩ (PP.adiskColor uA ⟨3.05 - 0.1 - 0.1, 0, 0⟩ (PP.adiskColor uA ⟨3.05 - 0.1, 0, 0⟩ (PP.adiskColor uA ⟨3.05, 0, 0⟩ ⟨0, 0, 0⟩ 1).1 1).1 1).1 1).1 1).1 1).1 1).1 1).1 1).1 1 (by norm_num)
  have hm10 : ((PP.adiskColor uA ⟨3.05 - 0.1 - 0.1 - 0.1 - 0.1 - 0.1 - 0.1 - 0.1 - 0.1 - 0.1, 0, 0⟩ (PP.adiskColor uA ⟨3.05 - 0.1 - 0.1 - 0.1 - 0.1 - 0.1 - 0.1 - 0.1 - 0.1, 0, 0⟩ (PP.adiskColor uA ⟨3.05 - 0.1 - 0.1 - 0.1 - 0.1 - 0.1 - 0.1 - 0.1, 0, 0⟩ (PP.adiskColor uA ⟨3.05 - 0.1 - 0.1 - 0.1 - 0.1 - 0.1 - 0.1, 0, 0⟩ (PP.adiskColor uA ⟨3.05 - 0.1 - 0.1 - 0.1 - 0.1 - 0.1, 0, 0⟩ (PP.adiskColor uA ⟨3.05 - 0.1 - 0.1 - 0.1 - 0.1, 0, 0⟩ (PP.adiskColor uA ⟨3.05 - 0.1 - 0.1 - 0.1, 0, 0⟩ (PP.adiskColor uA ⟨3.05 - 0.1 - 0.1, 0, 0⟩ (PP.adiskColor uA ⟨3.05 - 0.1, 0, 0⟩ (PP.adiskColor uA ⟨3.05, 0, 0⟩ ⟨0, 0, 0⟩ 1).1 1).1 1).1 1).1 1).1 1).1 1).1 1).1 1).1 1).1) ≤ ((PP.adiskColor uA ⟨3.05 - 0.1 - 0.1 - 0.1 - 0.1 - 0.1 - 0.1 - 0.1 - 0.1 - 0.1 - 0.1, 0, 0⟩ (PP.adiskColor uA ⟨3.05 - 0.1 - 0.1 - 0.1 - 0.1 - 0.1 - 0.1 - 0.1 - 0.1 - 0.1, 0, 0⟩ (PP.adiskColor uA ⟨3.05 - 0.1 - 0.1 - 0.1 - 0.1 - 0.1 - 0.1 - 0.1 - 0.1, 0, 0⟩ (PP.adiskColor uA ⟨3.05 - 0.1 - 0.1 - 0.1 - 0.1 - 0.1 - 0.1 - 0.1, 0, 0⟩ (PP.adiskColor uA ⟨3.05 - 0.1 - 0.1 - 0.1 - 0.1 - 0.1 - 0.1, 0, 0⟩ (PP.adiskColor uA ⟨3.05 - 0.1 - 0.1 - 0.1 - 0.1 - 0.1, 0, 0⟩ (PP.adiskColor uA ⟨3.05 - 0.1 - 0.1 - 0.1 - 0.1, 0, 0⟩ (PP.adiskColor uA ⟨3.05 - 0.1 - 0.1 - 0.1, 0, 0⟩ (PP.adiskColor uA ⟨3.05 - 0.1 - 0.1, 0, 0⟩ (PP.adiskColor uA ⟨3.05 - 0.1, 0, 0⟩ (PP.adiskColor uA ⟨3.05, 0, 0⟩ ⟨0, 0, 0⟩ 1).1 1).1 1).1 1).1 1).1 1).1 1).1 1).1 1).1 1).1 1).1) :=
    PP.adiskColor_mono uA ⟨3.05 - 0.1 - 0.1 - 0.1 - 0.1 - 0.1 - 0.1 - 0.1 - 0.1 - 0.1 - 0.1, 0, 0⟩ (PP.adiskColor uA ⟨3.05 - 0.1 - 0.1 - 0.1 - 0.1 - 0.1 - 0.1 - 0.1 - 0.1 - 0.1, 0, 0⟩ (PP.adiskColor uA ⟨3.05 - 0.1 - 0.1 - 0.1 - 0.1 - 0.1 - 0.1 - 0.1 - 0.1, 0, 0⟩ (PP.adiskColor uA ⟨3.05 - 0.1 - 0.1 - 0.1 - 0.1 - 0.1 - 0.1 - 0.1, 0, 0⟩ (PP.adiskColor uA ⟨3.05 - 0.1 - 0.1 - 0.1 - 0.1 - 0.1 - 0.1, 0, 0⟩ (PP.adiskColor uA ⟨3.05 - 0.1 - 0.1 - 0.1 - 0.1 - 0.1, 0, 0⟩ (PP.adiskColor uA ⟨3.05 - 0.1 - 0.1 - 0.1 - 0.1, 0, 0⟩ (PP.adiskColor uA ⟨3.05 - 0.1 - 0.1 - 0.1, 0, 0⟩ (PP.adiskColor uA ⟨3.05 - 0.1 - 0.1, 0, 0⟩ (PP.adiskColor uA ⟨3.05 - 0.1, 0, 0⟩ (PP.adiskColor uA ⟨3.05, 0, 0⟩ ⟨0, 0, 0⟩ 1).1 1).1 1).1 1).1 1).1 1).1 1).1 1).1 1).1 1).1 1 (by norm_num)
  have hle : ((PP.adiskColor uA ⟨3.05, 0, 0⟩ ⟨0, 0, 0⟩ 1).1) ≤ ((PP.adiskColor uA ⟨3.05 - 0.1 - 0.1 - 0.1 - 0.1 - 0.1 - 0.1 - 0.1 - 0.1 - 0.1 - 0.1, 0, 0⟩ (PP.adiskColor uA ⟨3.05 - 0.1 - 0.1 - 0.1 - 0.1 - 0.1 - 0.1 - 0.1 - 0.1 - 0.1, 0, 0⟩ (PP.adiskColor uA ⟨3.05 - 0.1 - 0.1 - 0.1 - 0.1 - 0.1 - 0.1 - 0.1 - 0.1, 0, 0⟩ (PP.adiskColor uA ⟨3.05 - 0.1 - 0.1 - 0.1 - 0.1 - 0.1 - 0.1 - 0.1, 0, 0⟩ (PP.adiskColor uA ⟨3.05 - 0.1 - 0.1 - 0.1 - 0.1 - 0.1 - 0.1, 0, 0⟩ (PP.adiskColor uA ⟨3.05 - 0.1 - 0.1 - 0.1 - 0.1 - 0.1, 0, 0⟩ (PP.adiskColor uA ⟨3.05 - 0.1 - 0.1 - 0.1 - 0.1, 0, 0⟩ (PP.adiskColor uA ⟨3.05 - 0.1 - 0.1 - 0.1, 0, 0⟩ (PP.adiskColor uA ⟨3.05 - 0.1 - 0.1, 0, 0⟩ (PP.adiskColor uA ⟨3.05 - 0.1, 0, 0⟩ (PP.adiskColor uA ⟨3.05, 0, 0⟩ ⟨0, 0, 0⟩ 1).1 1).1 1).1 1).1 1).1 1).1 1).1 1).1 1).1 1).1 1).1) := (((((((((hm1.trans hm2).trans hm3).trans hm4).trans hm5).trans hm6).trans hm7).trans hm8).trans hm9).trans hm10)
  intro hzero
  have hx11 : 0 < ((PP.adiskColor uA ⟨3.05 - 0.1 - 0.1 - 0.1 - 0.1 - 0.1 - 0.1 - 0.1 - 0.1 - 0.1 - 0.1, 0, 0⟩ (PP.adiskColor uA ⟨3.05 - 0.1 - 0.1 - 0.1 - 0.1 - 0.1 - 0.1 - 0.1 - 0.1 - 0.1, 0, 0⟩ (PP.adiskColor uA ⟨3.05 - 0.1 - 0.1 - 0.1 - 0.1 - 0.1 - 0.1 - 0.1 - 0.1, 0, 0⟩ (PP.adiskColor uA ⟨3.05 - 0.1 - 0.1 - 0.1 - 0.1 - 0.1 - 0.1 - 0.1, 0, 0⟩ (PP.adiskColor uA ⟨3.05 - 0.1 - 0.1 - 0.1 - 0.1 - 0.1 - 0.1, 0, 0⟩ (PP.adiskColor uA ⟨3.05 - 0.1 - 0.1 - 0.1 - 0.1 - 0.1, 0, 0⟩ (PP.adiskColor uA ⟨3.05 - 0.1 - 0.1 - 0.1 - 0.1, 0, 0⟩ (PP.adiskColor uA ⟨3.05 - 0.1 - 0.1 - 0.1, 0, 0⟩ (PP.adiskColor uA ⟨3.05 - 0.1 - 0.1, 0, 0⟩ (PP.adiskColor uA ⟨3.05 - 0.1, 0, 0⟩ (PP.adiskColor uA ⟨3.05, 0, 0⟩ ⟨0, 0, 0⟩ 1).1 1).1 1).1 1).1 1).1 1).1 1).1 1).1 1).1 1).1 1).1).x := lt_of_lt_of_le hx1 hle.1
  rw [hzero] at hx11
  exact lt_irrefl 0 hx11

/-- Claim C1, amended: when the traceColor loop terminates because the radius
drops below the event-horizon threshold, it returns the accumulated color
unchanged; the capture step itself contributes exactly black (nothing), but
prior accumulated disk color is kept, not zeroed. -/
theorem C1_capture_returns_accumulated (u : PP.Uniforms) (h2 : ℝ) (n : ℕ)
    (s : PP.TraceState) (h : length s.pos < PP.eventHorizon u) :
    PP.traceLoop u h2 (n + 1) s = (s.color, PP.Exit.absorbed) :=
  PP.traceLoop_absorbed u h2 n s h

/-- Witness for C1: a state already below the horizon with accumulated color
(5, 6, 7) returns exactly that color with the absorbed exit. -/
theorem C1_capture_returns_accumulated_witness :
    length ((⟨1, 0, 0⟩ : Vec3)) < PP.eventHorizon uA ∧
    PP.traceLoop uA 0 1 ⟨⟨1, 0, 0⟩, ⟨-0.1, 0, 0⟩, ⟨5, 6, 7⟩, 1⟩ =
      (⟨5, 6, 7⟩, PP.Exit.absorbed) := by
  have h : length ((⟨1, 0, 0⟩ : Vec3)) < PP.eventHorizon uA := by
    rw [length_axis 1 (by norm_num)]
    norm_num [PP.eventHorizon, uA]
  exact ⟨h, C1_capture_returns_accumulated uA 0 0 _ h⟩

/-- Claim C2, counterexample: at pos = (2, 0, 0) and h2 = 1 (with |pos| = 2
at least 1 and h2 nonnegative), the code computes -1.5 * h2 * pos / r^5 =
(-3/32, 0, 0), while the claimed law -1.5 * h2 * rhat / r^5 gives
(-3/64, 0, 0); they differ. -/
theorem C2_accel_cex :
    1 ≤ length (⟨2, 0, 0⟩ : Vec3) ∧ (0:ℝ) ≤ 1 ∧
    PP.accel 1 ⟨2, 0, 0⟩ = ⟨-(3/32), 0, 0⟩ ∧
    accelSpec 1 ⟨2, 0, 0⟩ = ⟨-(3/64), 0, 0⟩ ∧
    PP.accel 1 ⟨2, 0, 0⟩ ≠ accelSpec 1 ⟨2, 0, 0⟩ := by
  have hL : length (⟨2, 0, 0⟩ : Vec3) = 2 := length_axis 2 (by norm_num)
  have h4 : ((4:ℝ)) ^ (2.5:ℝ) = 32 := by
    rw [show (4:ℝ) = 2 * 2 from by norm_num, sq_rpow_two_five 2 (by norm_num)]
    norm_num
  have hacc : PP.accel 1 ⟨2, 0, 0⟩ = ⟨-(3/32), 0, 0⟩ := by
    unfold PP.accel
    dsimp only
    rw [show dot3 ⟨2, 0, 0⟩ ⟨2, 0, 0⟩ = 4 from by norm_num [dot3]]
    rw [sqrt_eq_of_sq 2 4 (by norm_num) (by norm_num)]
    rw [if_neg (by norm_num), h4]
    norm_num
  have hspec : accelSpec 1 ⟨2, 0, 0⟩ = ⟨-(3/64), 0, 0⟩ := by
    unfold accelSpec
    rw [hL]
    norm_num
  refine ⟨by rw [hL]; norm_num, by norm_num, hacc, hspec, ?_⟩
  rw [hacc, hspec]
  intro h
  have := congrArg Vec3.x h
  norm_num at this

/-- Claim C2, amended: for |pos| at least 1, accel returns
-1.5 * h2 * rhat / r^4 (equivalently -1.5 * h2 * pos / r^5), one power of r
less in the rhat form than the claim stated. -/
theorem C2_accel_law (h2 : ℝ) (pos : Vec3) (hr : 1 ≤ length pos) :
    PP.accel h2 pos = ((-1.5) * h2 / length pos ^ (4:ℕ)) * normalize pos := by
  have hL : 0 < length pos := lt_of_lt_of_le one_pos hr
  have hdot : dot3 pos pos = length pos * length pos := (length_sq pos).symm
  unfold PP.accel
  dsimp only
  rw [if_neg (show ¬ Real.sqrt (dot3 pos pos) < 1 from by
    rw [show Real.sqrt (dot3 pos pos) = length pos from rfl]
    linarith)]
  rw [hdot, sq_rpow_two_five (length pos) hL.le]
  unfold normalize
  ext
  all_goals simp only [smul_Vec3_def, Vec3_sdiv_def, Vec3_smul_def]
  all_goals rw [div_mul_div_comm, show (5:ℕ) = 4 + 1 from rfl, pow_succ]

/-- Witness for C2 at pos = (2, 0, 0), h2 = 1. -/
theorem C2_accel_law_witness :
    1 ≤ length (⟨2, 0, 0⟩ : Vec3) ∧
    PP.accel 1 ⟨2, 0, 0⟩ =
      ((-1.5) * 1 / length (⟨2, 0, 0⟩ : Vec3) ^ (4:ℕ)) * normalize ⟨2, 0, 0⟩ := by
  have h : 1 ≤ length (⟨2, 0, 0⟩ : Vec3) := by
    rw [length_axis 2 (by norm_num)]
    norm_num
  exact ⟨h, C2_accel_law 1 ⟨2, 0, 0⟩ h⟩

/-- Claim C3, counterexample: for M = 0.00005 (which is positive) at spin 0,
the lensing shader kerrEventHorizon clamps the mass to 0.0001 and returns
0.0002, which is not 2M = 0.0001. -/
theorem C3_horizon_cex :
    (0:ℝ) < 0.00005 ∧
    Lens.kerrEventHorizon 0.00005 0 = 0.0002 ∧
    (0.0002 : ℝ) ≠ 2 * 0.00005 := by
  refine ⟨by norm_num, ?_, by norm_num⟩
  unfold Lens.kerrEventHorizon
  dsimp only
  rw [show clampf 0 0 0.999 = 0 from by norm_num [clampf]]
  rw [show max (0.00005:ℝ) 0.0001 = 0.0001 from by norm_num]
  rw [show (0.0001:ℝ) * 0.0001 - (0 * 0.0001) * (0 * 0.0001) = 0.0001 * 0.0001 from by ring]
  rw [max_eq_left (by norm_num : (0:ℝ) ≤ 0.0001 * 0.0001)]
  rw [Real.sqrt_mul_self (by norm_num : (0:ℝ) ≤ 0.0001)]
  norm_num

/-- Claim C3, amended: for spin 0 and every mass at least the lensing
shader's defensive floor 0.0001, all three event-horizon computations (the
Kerr shaders' reduced formula, the lensing shader's Kerr formula, and the
TypeScript kerrEventHorizon) evaluate to exactly 2M. -/
theorem C3_horizon_spin_zero (u : PP.Uniforms) (hspin : u.uSpin = 0)
    (hm : 0.0001 ≤ u.uMass) :
    PP.eventHorizon u = 2 * u.uMass ∧
    Lens.kerrEventHorizon u.uMass u.uSpin = 2 * u.uMass ∧
    TS.kerrEventHorizon u.uMass u.uSpin = 2 * u.uMass := by
  have hM0 : (0:ℝ) ≤ u.uMass := by linarith
  refine ⟨?_, ?_, ?_⟩
  · unfold PP.eventHorizon
    rw [hspin]
    ring
  · unfold Lens.kerrEventHorizon
    rw [hspin]
    dsimp only
    rw [show clampf 0 0 0.999 = 0 from by norm_num [clampf]]
    rw [max_eq_left hm]
    rw [show u.uMass * u.uMass - (0 * u.uMass) * (0 * u.uMass) = u.uMass * u.uMass from by
      ring]
    rw [max_eq_left (mul_self_nonneg _), Real.sqrt_mul_self hM0]
    ring
  · unfold TS.kerrEventHorizon
    rw [hspin]
    dsimp only
    rw [show u.uMass * u.uMass - 0 * u.uMass * (0 * u.uMass) = u.uMass * u.uMass from by
      ring]
    rw [Real.sqrt_mul_self hM0]
    ring

/-- Witness for C3 at the uA uniforms (mass 1, spin 0). -/
theorem C3_horizon_spin_zero_witness :
    uA.uSpin = 0 ∧ (0.0001 : ℝ) ≤ uA.uMass ∧
    PP.eventHorizon uA = 2 * uA.uMass ∧
    Lens.kerrEventHorizon uA.uMass uA.uSpin = 2 * uA.uMass ∧
    TS.kerrEventHorizon uA.uMass uA.uSpin = 2 * uA.uMass := by
  have h1 : uA.uSpin = 0 := rfl
  have h2 : (0.0001 : ℝ) ≤ uA.uMass := by norm_num [uA]
  obtain ⟨a, b, c⟩ := C3_horizon_spin_zero uA h1 h2
  exact ⟨h1, h2, a, b, c⟩

/-- Claim C4: exhausting the step budget produces exactly the escape-branch
result in both loop implementations: the kerr traceColor loop adds the
background sampled at the final direction weighted by alpha, and the
gravitational_lensing loop returns the background at the final velocity;
neither case is a failure state. -/
theorem C4_budget_exhaustion_is_escape :
    (∀ (u : PP.Uniforms) (h2 : ℝ) (s : PP.TraceState),
        (PP.traceLoop u h2 0 s).1 =
          s.color + PP.sampleBackground u (normalize s.dir) * s.alpha) ∧
    (∀ (u : PP.Uniforms) (h2 : ℝ) (n : ℕ) (s : PP.TraceState),
        ¬ length s.pos < PP.eventHorizon u → 100 < length s.pos →
        (PP.traceLoop u h2 (n + 1) s).1 =
          s.color + PP.sampleBackground u (normalize s.dir) * s.alpha) ∧
    (∀ (u : Grav.Uniforms) (pos vel : Vec3),
        Grav.mainLoop u 0 pos vel = Grav.sampleBackground (normalize vel)) ∧
    (∀ (u : Grav.Uniforms) (n : ℕ) (pos vel : Vec3),
        ¬ length pos < Grav.SCHWARZSCHILD_RADIUS * 1.05 → 100 < length pos →
        Grav.mainLoop u (n + 1) pos vel = Grav.sampleBackground (normalize vel)) := by
  refine ⟨fun u h2 s => rfl, fun u h2 n s h h' => ?_, fun u pos vel => rfl,
    fun u n pos vel h h' => ?_⟩
  · rw [PP.traceLoop_escaped u h2 n s h h']
  · simp [Grav.mainLoop, h, h']

/-- Witness for C4: a state at radius 200 escapes on the next step with the
same color the budget-exhaustion branch would produce. -/
theorem C4_budget_exhaustion_is_escape_witness :
    (¬ length ((⟨200, 0, 0⟩ : Vec3)) < PP.eventHorizon uA) ∧
    100 < length ((⟨200, 0, 0⟩ : Vec3)) ∧
    (PP.traceLoop uA 0 1 ⟨⟨200, 0, 0⟩, ⟨-0.1, 0, 0⟩, ⟨0, 0, 0⟩, 1⟩).1 =
      (⟨0, 0, 0⟩ : Vec3) + PP.sampleBackground uA (normalize ⟨-0.1, 0, 0⟩) * (1:ℝ) ∧
    (¬ length ((⟨200, 0, 0⟩ : Vec3)) < Grav.SCHWARZSCHILD_RADIUS * 1.05) ∧
    Grav.mainLoop uG 1 ⟨200, 0, 0⟩ ⟨0, 0, -1⟩ =
      Grav.sampleBackground (normalize ⟨0, 0, -1⟩) := by
  have hL : length ((⟨200, 0, 0⟩ : Vec3)) = 200 := length_axis 200 (by norm_num)
  have h1 : ¬ length ((⟨200, 0, 0⟩ : Vec3)) < PP.eventHorizon uA := by
    rw [hL]
    norm_num [PP.eventHorizon, uA]
  have h2 : 100 < length ((⟨200, 0, 0⟩ : Vec3)) := by
    rw [hL]
    norm_num
  have h3 : ¬ length ((⟨200, 0, 0⟩ : Vec3)) < Grav.SCHWARZSCHILD_RADIUS * 1.05 := by
    rw [hL]
    norm_num [Grav.SCHWARZSCHILD_RADIUS]
  exact ⟨h1, h2, C4_budget_exhaustion_is_escape.2.1 uA 0 0 _ h1 h2, h3,
    C4_budget_exhaustion_is_escape.2.2.2 uG 0 ⟨200, 0, 0⟩ ⟨0, 0, -1⟩ h3 h2⟩

/-- Claim C6, counterexample: in the kerr traceColor loop the direction is
scaled to STEP_SIZE = 0.1 before the loop and is never re-normalized: for the
ray from (50, 0, 0) with unit direction (-1, 0, 0) (whose conserved h2 is 0),
the direction after the first loop step has length 0.1, not 1. -/
theorem C6_no_renormalize_cex :
    (⟨-1, 0, 0⟩ : Vec3) * PP.STEP_SIZE = ⟨-0.1, 0, 0⟩ ∧
    dot3 (cross ⟨50, 0, 0⟩ ⟨-0.1, 0, 0⟩) (cross ⟨50, 0, 0⟩ ⟨-0.1, 0, 0⟩) = 0 ∧
    length ((PP.traceStep uA 0 ⟨⟨50, 0, 0⟩, ⟨-0.1, 0, 0⟩, ⟨0, 0, 0⟩, 1⟩).dir) = 0.1 ∧
    (0.1 : ℝ) ≠ 1 := by
  refine ⟨by norm_num [PP.STEP_SIZE], by norm_num [cross, dot3], ?_, by norm_num⟩
  have hd : (PP.traceStep uA 0 ⟨⟨50, 0, 0⟩, ⟨-0.1, 0, 0⟩, ⟨0, 0, 0⟩, 1⟩).dir =
      ⟨-0.1, 0, 0⟩ := by
    rw [PP.traceStep_dir, PP.accel_h2_zero]
    norm_num
  rw [hd, length_eval]
  rw [show (-0.1:ℝ) * -0.1 + 0 * 0 + 0 * 0 = 0.1 * 0.1 from by norm_num]
  exact Real.sqrt_mul_self (by norm_num)

/-- Claim C6, amended: the RK4 integrator of gravitational_lensing.glsl does
re-normalize the velocity each step (unit length whenever the raw updated
velocity is nonzero), while the kerr traceColor step only adds the
acceleration to the step-scaled direction and never normalizes it. -/
theorem C6_renormalization :
    (∀ (pos vel : Vec3) (dt : ℝ), (Grav.rk4Raw pos vel dt).2 ≠ ⟨0, 0, 0⟩ →
        length (Grav.rk4Step pos vel dt).2 = 1) ∧
    (∀ (u : PP.Uniforms) (h2 : ℝ) (s : PP.TraceState),
        (PP.traceStep u h2 s).dir = s.dir + PP.accel h2 s.pos) := by
  refine ⟨fun pos vel dt h => ?_, fun u h2 s => PP.traceStep_dir u h2 s⟩
  unfold Grav.rk4Step
  dsimp only
  exact length_normalize _ h

/-- Witness for C6: a concrete RK4 step (inside the acceleration guard, so
the velocity is unchanged and nonzero) yields a unit velocity. -/
theorem C6_renormalization_witness :
    (Grav.rk4Raw ⟨0.5, 0, 0⟩ ⟨1, 0, 0⟩ 0.1).2 ≠ ⟨0, 0, 0⟩ ∧
    length (Grav.rk4Step ⟨0.5, 0, 0⟩ ⟨1, 0, 0⟩ 0.1).2 = 1 := by
  have h : (Grav.rk4Raw ⟨0.5, 0, 0⟩ ⟨1, 0, 0⟩ 0.1).2 ≠ ⟨0, 0, 0⟩ := by
    rw [rk4Raw_val]
    intro hc
    have := congrArg Vec3.x hc
    norm_num at this
  exact ⟨h, C6_renormalization.1 _ _ _ h⟩

/-- Claim C7, counterexample: at direction (0, 0, 1) and time 0 the
kerr_postprocess background sampler computes uv = (1/4, 1/2), while the
claimed mapping u = atan2/2 pi + 0.5 gives (3/4, 1/2): the shader uses the
mirrored form 0.5 - atan2/2 pi. -/
theorem C7_uv_cex :
    PP.sampleBackgroundUV uA ⟨0, 0, 1⟩ = ⟨1/4, 1/2⟩ ∧
    specEquirectUV ⟨0, 0, 1⟩ = ⟨3/4, 1/2⟩ ∧
    PP.sampleBackgroundUV uA ⟨0, 0, 1⟩ ≠ specEquirectUV ⟨0, 0, 1⟩ := by
  have hpi : (π/2) / (2 * π) = 1/4 := by
    rw [div_div, div_eq_div_iff (by positivity) (by norm_num : (4:ℝ) ≠ 0)]
    ring
  have h1 : PP.sampleBackgroundUV uA ⟨0, 0, 1⟩ = ⟨1/4, 1/2⟩ := by
    unfold PP.sampleBackgroundUV
    dsimp only
    rw [show uA.uTime * 10 = 0 from by norm_num [uA]]
    rw [rotateVector_angle_zero]
    rw [show atan2 1 0 = π/2 from by norm_num [atan2]]
    rw [show clampf 0 (-1) 1 = 0 from by norm_num [clampf]]
    rw [Real.arcsin_zero, hpi]
    norm_num
  have h2 : specEquirectUV ⟨0, 0, 1⟩ = ⟨3/4, 1/2⟩ := by
    unfold specEquirectUV
    dsimp only
    rw [show atan2 1 0 = π/2 from by norm_num [atan2]]
    rw [show clampf 0 (-1) 1 = 0 from by norm_num [clampf]]
    rw [Real.arcsin_zero, hpi]
    norm_num
  refine ⟨h1, h2, ?_⟩
  rw [h1, h2]
  intro h
  have := congrArg Vec2.x h
  norm_num at this

/-- Claim C7, amended: the lensing shaders use exactly the claimed
equirectangular mapping, while the kerr_postprocess sampler (at time 0, when
its additional time rotation is the identity) produces the pointwise mirror
(1 - u, 1 - v) of the claimed mapping. -/
theorem C7_uv_mapping :
    (∀ d : Vec3, Lens.sampleBackgroundUV d = specEquirectUV d) ∧
    (∀ (u : PP.Uniforms) (d : Vec3), u.uTime = 0 →
      PP.sampleBackgroundUV u d =
        ⟨1 - (specEquirectUV d).x, 1 - (specEquirectUV d).y⟩) := by
  refine ⟨fun d => rfl, fun u d ht => ?_⟩
  unfold PP.sampleBackgroundUV specEquirectUV
  dsimp only
  rw [ht]
  rw [show (0:ℝ) * 10 = 0 from by norm_num]
  rw [rotateVector_angle_zero]
  ext
  · dsimp only
    ring
  · dsimp only
    ring

/-- Witness for C7 at the uA uniforms (time 0) and direction (0, 0, 1). -/
theorem C7_uv_mapping_witness :
    uA.uTime = 0 ∧
    Lens.sampleBackgroundUV ⟨0, 0, 1⟩ = specEquirectUV ⟨0, 0, 1⟩ ∧
    PP.sampleBackgroundUV uA ⟨0, 0, 1⟩ =
      ⟨1 - (specEquirectUV ⟨0, 0, 1⟩).x, 1 - (specEquirectUV ⟨0, 0, 1⟩).y⟩ :=
  ⟨rfl, C7_uv_mapping.1 ⟨0, 0, 1⟩, C7_uv_mapping.2 uA ⟨0, 0, 1⟩ rfl⟩

/-- Claim C8: adiskColor returns alpha unchanged on every path, the loop step
preserves alpha, any number of loop steps preserves alpha (so the alpha
initialized to 1 by traceColor is still 1 at termination), and every disk
contribution is weighted by exactly that unchanged alpha. -/
theorem C8_alpha_invariant :
    (∀ (u : PP.Uniforms) (pos c : Vec3) (a : ℝ), (PP.adiskColor u pos c a).2 = a) ∧
    (∀ (u : PP.Uniforms) (h2 : ℝ) (s : PP.TraceState),
        (PP.traceStep u h2 s).alpha = s.alpha) ∧
    (∀ (u : PP.Uniforms) (h2 : ℝ) (n : ℕ) (s : PP.TraceState),
        ((PP.traceStep u h2)^[n] s).alpha = s.alpha) ∧
    (∀ (u : PP.Uniforms) (pos c : Vec3) (a : ℝ),
        (PP.adiskColor u pos c a).1 =
          c + PP.adiskDensity u pos * 0.8 * PP.adiskBaseColor u pos * a *
            |PP.adiskNoise u pos|) := by
  refine ⟨fun u pos c a => by rw [PP.adiskColor_eq], fun u h2 s => PP.traceStep_alpha u h2 s,
    fun u h2 n => ?_, fun u pos c a => by rw [PP.adiskColor_eq]⟩
  induction n with
  | zero => intro s; rfl
  | succ k ih =>
      intro s
      rw [Function.iterate_succ_apply, ih, PP.traceStep_alpha]

/-- Claim C9: the per-pixel shader output is a deterministic function of the
uniforms (resolution, camera, time, physics and disk parameters) and the
pixel coordinate alone; in particular it is independent of the post-processing
input color, the only other data the fragment receives. -/
theorem C9_deterministic :
    ∀ (u : PP.Uniforms) (ic ic' : Vec4) (uv : Vec2),
      PP.mainImage u ic uv = PP.mainImage u ic' uv :=
  fun _ _ _ _ => rfl

/-- Claim C10: whenever the running alpha is nonnegative (it is constantly 1
in the loop), adiskColor can only increase the accumulated color
componentwise, and hence each loop step leaves the color componentwise
non-decreasing. -/
theorem C10_color_monotone (u : PP.Uniforms) (pos c : Vec3) (a h2 : ℝ)
    (s : PP.TraceState) (ha : 0 ≤ a) (hs : 0 ≤ s.alpha) :
    c ≤ (PP.adiskColor u pos c a).1 ∧ s.color ≤ (PP.traceStep u h2 s).color :=
  ⟨PP.adiskColor_mono u pos c a ha, by
    rw [PP.traceStep_color]
    exact PP.adiskColor_mono u s.pos s.color s.alpha hs⟩

/-- Witness for C10 at the uA uniforms, disk point (3.05, 0, 0) and a state
with alpha 1. -/
theorem C10_color_monotone_witness :
    (0:ℝ) ≤ 1 ∧
    (⟨1, 2, 3⟩ : Vec3) ≤ (PP.adiskColor uA ⟨3.05, 0, 0⟩ ⟨1, 2, 3⟩ 1).1 ∧
    (⟨0, 0, 0⟩ : Vec3) ≤
      (PP.traceStep uA 0 ⟨⟨3.05, 0, 0⟩, ⟨-0.1, 0, 0⟩, ⟨0, 0, 0⟩, 1⟩).color := by
  have h := C10_color_monotone uA ⟨3.05, 0, 0⟩ ⟨1, 2, 3⟩ 1 0
    ⟨⟨3.05, 0, 0⟩, ⟨-0.1, 0, 0⟩, ⟨0, 0, 0⟩, 1⟩ (by norm_num) (by norm_num)
  exact ⟨by norm_num, h.1, h.2⟩

/-- Claim C5, amended: outside the ellipsoid obtained by dividing the position
by (outerRadius, thickness, outerRadius), the disk density is zero and
adiskColor leaves color and alpha untouched; inside it, with horizontal
coordinates fixed, the density is strictly decreasing in the absolute vertical
coordinate wherever the position has passed the inner smoothstep ramp
(|pos| at least 1.1 * innerRadius at the smaller |y|) and the density at the
larger |y| is nonzero. Near the inner ramp the claimed strict decrease fails,
see the counterexample. -/
theorem C5_density_profile :
    (∀ (u : PP.Uniforms) (pos : Vec3),
        1 ≤ length (pos / (⟨u.uDiskOuter, u.uDiskThickness, u.uDiskOuter⟩ : Vec3)) →
        PP.adiskDensity u pos = 0 ∧ ∀ c a, PP.adiskColor u pos c a = (c, a)) ∧
    (∀ (u : PP.Uniforms) (x y1 y2 z : ℝ),
        0 < u.uDiskInner → 0 < u.uDiskThickness → |y1| < |y2| →
        u.uDiskInner * 1.1 ≤ length ⟨x, y1, z⟩ →
        0 < PP.adiskDensity u ⟨x, y2, z⟩ →
        PP.adiskDensity u ⟨x, y2, z⟩ < PP.adiskDensity u ⟨x, y1, z⟩) := by
  constructor
  · intro u pos hL
    have h0 : max 0 (1 - length (pos /
        (⟨u.uDiskOuter, u.uDiskThickness, u.uDiskOuter⟩ : Vec3))) < 0.001 := by
      rw [max_eq_left (by linarith)]
      norm_num
    constructor
    · unfold PP.adiskDensity
      dsimp only
      rw [if_pos h0]
    · intro c a
      unfold PP.adiskColor
      dsimp only
      rw [if_pos h0]
  · exact adiskDensity_strict_anti

/-- Claim C5, counterexample: with the uA disk (inner 2.5, outer 10,
thickness 1), both (2.5, 0, 0) and (2.5, 0.5, 0) lie inside the ellipsoid and
share horizontal coordinates, |y| increases from 0 to 0.5, yet the density
rises from 0 to a positive value: the inner-edge smoothstep grows with |y|
and defeats the claimed strict decrease. -/
theorem C5_density_cex :
    length ((⟨2.5, 0, 0⟩ : Vec3) /
      (⟨uA.uDiskOuter, uA.uDiskThickness, uA.uDiskOuter⟩ : Vec3)) < 1 ∧
    length ((⟨2.5, 0.5, 0⟩ : Vec3) /
      (⟨uA.uDiskOuter, uA.uDiskThickness, uA.uDiskOuter⟩ : Vec3)) < 1 ∧
    |(0:ℝ)| < |(0.5:ℝ)| ∧
    PP.adiskDensity uA ⟨2.5, 0, 0⟩ = 0 ∧
    0 < PP.adiskDensity uA ⟨2.5, 0.5, 0⟩ := by
  have hdiv1 : (⟨2.5, 0, 0⟩ : Vec3) /
      (⟨uA.uDiskOuter, uA.uDiskThickness, uA.uDiskOuter⟩ : Vec3) = ⟨0.25, 0, 0⟩ := by
    norm_num [uA]
  have hdiv2 : (⟨2.5, 0.5, 0⟩ : Vec3) /
      (⟨uA.uDiskOuter, uA.uDiskThickness, uA.uDiskOuter⟩ : Vec3) = ⟨0.25, 0.5, 0⟩ := by
    norm_num [uA]
  have hL2 : length (⟨0.25, 0.5, 0⟩ : Vec3) = Real.sqrt (5/16) := by
    rw [length_eval]
    norm_num
  have hrho2 : length (⟨2.5, 0.5, 0⟩ : Vec3) = Real.sqrt (13/2) := by
    rw [length_eval]
    norm_num
  have hs0 : (0:ℝ) ≤ Real.sqrt (5/16) := Real.sqrt_nonneg _
  have hsU : Real.sqrt (5/16) < 3/5 := (Real.sqrt_lt' (by norm_num)).2 (by norm_num)
  have hrL : (2.52:ℝ) < Real.sqrt (13/2) := by
    rw [show (2.52:ℝ) = Real.sqrt (2.52^2) from (Real.sqrt_sq (by norm_num)).symm]
    exact Real.sqrt_lt_sqrt (by norm_num) (by norm_num)
  have hrU : Real.sqrt (13/2) < 2.55 := (Real.sqrt_lt' (by norm_num)).2 (by norm_num)
  -- the smoothstep ramp value at sqrt(13/2) is strictly between 0.01 and 1
  have hss : 0.01 ≤ smoothstepf uA.uDiskInner (uA.uDiskInner * 1.1)
      (length (⟨2.5, 0.5, 0⟩ : Vec3)) := by
    rw [hrho2, show uA.uDiskInner = 2.5 from rfl, smoothstepf_eq]
    have hr1 : (0.08:ℝ) ≤ (Real.sqrt (13/2) - 2.5) / (2.5 * 1.1 - 2.5) := by
      rw [show (2.5 * 1.1 - 2.5 : ℝ) = 0.25 from by norm_num, le_div_iff (by norm_num)]
      linarith
    have hr2 : (Real.sqrt (13/2) - 2.5) / (2.5 * 1.1 - 2.5) ≤ 0.2 := by
      rw [show (2.5 * 1.1 - 2.5 : ℝ) = 0.25 from by norm_num, div_le_iff (by norm_num)]
      linarith
    have hcl : clampf ((Real.sqrt (13/2) - 2.5) / (2.5 * 1.1 - 2.5)) 0 1 =
        (Real.sqrt (13/2) - 2.5) / (2.5 * 1.1 - 2.5) := by
      unfold clampf
      rw [max_eq_left (by linarith), min_eq_left (by linarith)]
    rw [hcl]
    set r := (Real.sqrt (13/2) - 2.5) / (2.5 * 1.1 - 2.5)
    nlinarith
  refine ⟨?_, ?_, by norm_num, ?_, ?_⟩
  · rw [hdiv1, length_axis 0.25 (by norm_num)]
    norm_num
  · rw [hdiv2, hL2]
    linarith
  · unfold PP.adiskDensity
    norm_num [uA, length_axis ((1:ℝ)/4) (by norm_num), length_axis ((5:ℝ)/2) (by norm_num),
      PP.toSpherical_x, smoothstepf, clampf, rpow_two, Real.one_rpow]
  · have g1 : ¬ max 0 (1 - length ((⟨2.5, 0.5, 0⟩ : Vec3) /
        (⟨uA.uDiskOuter, uA.uDiskThickness, uA.uDiskOuter⟩ : Vec3))) < 0.001 := by
      rw [hdiv2, hL2, max_eq_right (by linarith)]
      push_neg
      linarith
    have g2 : ¬ max 0 (1 - length ((⟨2.5, 0.5, 0⟩ : Vec3) /
          (⟨uA.uDiskOuter, uA.uDiskThickness, uA.uDiskOuter⟩ : Vec3))) *
        (1 - |(⟨2.5, 0.5, 0⟩ : Vec3).y| / uA.uDiskThickness) ^ (2:ℝ) *
        smoothstepf uA.uDiskInner (uA.uDiskInner * 1.1)
          (length (⟨2.5, 0.5, 0⟩ : Vec3)) < 0.001 := by
      rw [hdiv2, hL2, max_eq_right (by linarith)]
      push_neg
      rw [show |(⟨2.5, 0.5, 0⟩ : Vec3).y| / uA.uDiskThickness = 0.5 from by norm_num [uA],
        rpow_two]
      nlinarith [hss]
    rw [PP.adiskDensity_value uA ⟨2.5, 0.5, 0⟩ g1 g2]
    rw [hdiv2, hL2, max_eq_right (by linarith)]
    rw [show |(⟨2.5, 0.5, 0⟩ : Vec3).y| / uA.uDiskThickness = 0.5 from by norm_num [uA],
      rpow_two, rpow_four, hrho2]
    have h1 : (0:ℝ) < 1 - Real.sqrt (5/16) := by linarith
    have h2 : (0:ℝ) < (1 - (0.5:ℝ)) ^ (2:ℕ) := by norm_num
    have h3 : (0:ℝ) < smoothstepf uA.uDiskInner (uA.uDiskInner * 1.1)
        (length (⟨2.5, 0.5, 0⟩ : Vec3)) := by linarith
    have h4 : (0:ℝ) < 1 / Real.sqrt (13/2) ^ (4:ℕ) :=
      div_pos one_pos (pow_pos (by linarith) 4)
    calc (0:ℝ) < (1 - Real.sqrt (5/16)) * (1 - (0.5:ℝ)) ^ (2:ℕ) *
          smoothstepf uA.uDiskInner (uA.uDiskInner * 1.1)
            (length (⟨2.5, 0.5, 0⟩ : Vec3)) *
          (1 / Real.sqrt (13/2) ^ (4:ℕ)) * 32000 := by positivity
      _ = _ := by rw [hrho2]

/-- Witness for C5: (20, 0, 0) lies outside the uA ellipsoid and gets zero
density and an unchanged color state, and between (3, 0, 0) and (3, 0.4, 0)
(both past the inner ramp, positive density above) the density strictly
decreases in |y|. -/
theorem C5_density_profile_witness :
    1 ≤ length ((⟨20, 0, 0⟩ : Vec3) /
      (⟨uA.uDiskOuter, uA.uDiskThickness, uA.uDiskOuter⟩ : Vec3)) ∧
    PP.adiskDensity uA ⟨20, 0, 0⟩ = 0 ∧
    PP.adiskColor uA ⟨20, 0, 0⟩ ⟨1, 2, 3⟩ 1 = (⟨1, 2, 3⟩, 1) ∧
    0 < uA.uDiskInner ∧ 0 < uA.uDiskThickness ∧ |(0:ℝ)| < |(0.4:ℝ)| ∧
    uA.uDiskInner * 1.1 ≤ length (⟨3, 0, 0⟩ : Vec3) ∧
    0 < PP.adiskDensity uA ⟨3, 0.4, 0⟩ ∧
    PP.adiskDensity uA ⟨3, 0.4, 0⟩ < PP.adiskDensity uA ⟨3, 0, 0⟩ := by
  have hout : 1 ≤ length ((⟨20, 0, 0⟩ : Vec3) /
      (⟨uA.uDiskOuter, uA.uDiskThickness, uA.uDiskOuter⟩ : Vec3)) := by
    rw [show (⟨20, 0, 0⟩ : Vec3) /
        (⟨uA.uDiskOuter, uA.uDiskThickness, uA.uDiskOuter⟩ : Vec3) = ⟨2, 0, 0⟩ from by
      norm_num [uA]]
    rw [length_axis 2 (by norm_num)]
    norm_num
  have hin : (0:ℝ) < uA.uDiskInner := by norm_num [uA]
  have ht : (0:ℝ) < uA.uDiskThickness := by norm_num [uA]
  have hy : |(0:ℝ)| < |(0.4:ℝ)| := by norm_num
  have hrr : uA.uDiskInner * 1.1 ≤ length (⟨3, 0, 0⟩ : Vec3) := by
    rw [length_axis 3 (by norm_num)]
    norm_num [uA]
  obtain ⟨hd0, hcol⟩ := C5_density_profile.1 uA ⟨20, 0, 0⟩ hout
  exact ⟨hout, hd0, hcol ⟨1, 2, 3⟩ 1, hin, ht, hy, hrr, adiskDensity_wB_pos,
    C5_density_profile.2 uA 3 0 0.4 0 hin ht hy hrr adiskDensity_wB_pos⟩

end KerrBH
